import Mathlib

/-
Shallow embedding of the freehand-drawing directive
(`src/src/app/app.component.ts`, class `FreehandDrawingDirective`).

Modelling conventions:
* Numbers are exact reals (`ℝ`); the JS code uses IEEE doubles.
* The PixiJS drawing surface is modelled per its use here: a `Graphics`
  object is a list of drawing commands addressed by a numeric id in a
  heap `gfxContent`, a `Container` is a list of child graphics ids
  addressed by an id in a heap `containers`.  Ids make the aliasing of
  `_stroke`/`_tip`/`_curStrokeContainer` with container children exact.
  `numChildren` is read as the child count, `contains` as membership,
  `removeChild` removes the first occurrence when present.
* A thrown JS `TypeError` (property access on `undefined`/`null`) is
  modelled by the latch `err`; once set, the remaining statements of the
  public call are skipped (`seq`), matching exception propagation.
  `_stroke`, `_tip` and `_curStrokeContainer` are `Option` ids, `none`
  standing for both `undefined` and `null`.
* `beginStrokeAt`'s `index` parameter is `Option Nat`: `none` is the
  default `-1`, `some i` a requested slot (the claims only exercise
  `-1` and in-range indices).
* Fields left `undefined` by the constructor (`_lastThickness`,
  `_lineThickness`, `_tip`, ...) are initialised to `0`/`none`; no claim
  observes them before the code first assigns them.
* The two `EventEmitter` outputs are modelled by an `events` ghost log.
-/

namespace FreehandDrawing

/-- One drawing command recorded on a PixiJS `Graphics` object. -/
inductive DrawCmd : Type
  | beginFill (color : ℤ) (alpha : ℝ)
  | moveTo (x y : ℝ)
  | lineTo (x y : ℝ)
  | quadraticCurveTo (cx cy x y : ℝ)
  | drawCircle (x y r : ℝ)
  | endFill

/-- Notifications emitted through the directive's two outputs. -/
inductive Ev : Type
  | beginStroke
  | endStroke
deriving DecidableEq

/-- The observable state of a `FreehandDrawingDirective` instance. -/
structure FState : Type where
  -- inputs / configuration
  interactive : Bool
  cache : Bool
  smoothing : ℝ
  fillColor : ℤ
  -- stroke collection and drawing-surface tree
  strokes : List Nat                 -- `_strokes` (container ids)
  strokeContainerChildren : List Nat -- children of `_strokeContainer`
  containers : Nat → List Nat        -- container heap (child gfx ids)
  nextContainerId : Nat
  gfxContent : Nat → List DrawCmd    -- graphics heap
  nextGfxId : Nat
  curStrokeContainer : Option Nat    -- `_curStrokeContainer`
  stroke : Option Nat                -- `_stroke`
  tip : Option Nat                   -- `_tip`
  -- cached drawing properties
  lastRotation : ℝ
  lineRotation : ℝ
  L1Sin1 : ℝ
  L1Cos1 : ℝ
  controlX1 : ℝ
  controlY1 : ℝ
  controlX2 : ℝ
  controlY2 : ℝ
  taperThickness : ℝ
  taper : ℝ
  -- mouse status
  handlersAssigned : Bool
  mouseMoved : Bool
  lastSmoothedMouseX : ℝ
  lastSmoothedMouseY : ℝ
  smoothedMouseX : ℝ
  smoothedMouseY : ℝ
  lastMouseX : ℝ
  lastMouseY : ℝ
  startX : ℝ
  startY : ℝ
  mouseDeltaX : ℝ
  mouseDeltaY : ℝ
  lastMouseChangeVectorX : ℝ
  lastMouseChangeVectorY : ℝ
  mousePressed : Bool
  -- line thickness properties
  lastThickness : ℝ
  lineThickness : ℝ
  tipTaperFactor : ℝ
  minThickness : ℝ
  thicknessFactor : ℝ
  thicknessSmoothingFactor : ℝ
  -- optional cached x- and y-coordinates
  xLog : List ℝ                      -- `_x`
  yLog : List ℝ                      -- `_y`
  -- ghost fields
  events : List Ev
  err : Bool

/-- `Math.atan2 y x`, as the argument of the complex number `x + y*I`. -/
noncomputable def atan2 (y x : ℝ) : ℝ := Complex.arg ⟨x, y⟩

/-- Run `f` unless an exception has already been raised during this call. -/
def seq (s : FState) (f : FState → FState) : FState :=
  if s.err then s else f s

/-- Overwrite the command list of graphics object `g`. -/
def setGfx (s : FState) (g : Nat) (cmds : List DrawCmd) : FState :=
  { s with gfxContent := fun n => if n = g then cmds else s.gfxContent n }

/-- Overwrite the child list of container `c`. -/
def setContainer (s : FState) (c : Nat) (ch : List Nat) : FState :=
  { s with containers := fun n => if n = c then ch else s.containers n }

/-- Append drawing commands to an optional graphics target; a missing
target is a JS `TypeError` (method call on `undefined`). -/
def gfxAppend (s : FState) (target : Option Nat) (cmds : List DrawCmd) : FState :=
  if s.err then s
  else
    match target with
    | none => { s with err := true }
    | some g => setGfx s g (s.gfxContent g ++ cmds)

/-- Rounded-cap circle of `__drawTip` (source lines 704-706). -/
def tipCircle (s : FState) (x y : ℝ) : List DrawCmd :=
  [DrawCmd.beginFill s.fillColor 1, DrawCmd.drawCircle x y s.taperThickness,
   DrawCmd.endFill]

/-- Tapered final quad of `__drawTip` (source lines 711-717). -/
def tipQuad (s : FState) (x y : ℝ) : List DrawCmd :=
  [DrawCmd.beginFill s.fillColor 1,
   DrawCmd.moveTo (s.smoothedMouseX + s.L1Cos1) (s.smoothedMouseY + s.L1Sin1),
   DrawCmd.lineTo (x + s.taper * s.L1Cos1) (y + s.taper * s.L1Sin1),
   DrawCmd.lineTo (x - s.taper * s.L1Cos1) (y - s.taper * s.L1Sin1),
   DrawCmd.lineTo (s.smoothedMouseX - s.L1Cos1) (s.smoothedMouseY - s.L1Sin1),
   DrawCmd.lineTo (s.smoothedMouseX + s.L1Cos1) (s.smoothedMouseY + s.L1Sin1),
   DrawCmd.endFill]

/-- `__drawTip(isFinal, x, y)` (source lines 693-718): compute the taper
thickness, pick the stroke layer (final) or the cleared tip layer
(non-final), then draw the cap circle and the tapered quad. -/
def drawTip (s : FState) (isFinal : Bool) (x y : ℝ) : FState :=
  if s.err then s
  else
    let s := { s with taperThickness := s.tipTaperFactor * s.lineThickness }
    let gOpt : Option Nat := if isFinal then s.stroke else s.tip
    let s :=
      if isFinal then s
      else
        match s.tip with
        | none => { s with err := true }   -- `this._tip.clear()` on null
        | some t => setGfx s t []
    let s := gfxAppend s gOpt (tipCircle s x y)
    let s := seq s fun s => { s with taper := s.tipTaperFactor }
    gfxAppend s gOpt (tipQuad s x y)

/-- `beginStrokeAt(x, y, index)` (source lines 457-508). -/
noncomputable def beginStrokeAt (s : FState) (x y : ℝ) (index : Option Nat) :
    FState :=
  let s := { s with xLog := [], yLog := [] }
  let s := if s.cache then { s with xLog := [x], yLog := [y] } else s
  let s := { s with
    startX := x, lastMouseX := x, smoothedMouseX := x, lastSmoothedMouseX := x,
    startY := y, lastMouseY := y, smoothedMouseY := y, lastSmoothedMouseY := y,
    lastThickness := 0, lastRotation := Real.pi / 2,
    lastMouseChangeVectorX := 0, lastMouseChangeVectorY := 0,
    mouseMoved := false }
  -- `new PIXI.Graphics()` twice: fresh empty graphics for stroke and tip
  let sid := s.nextGfxId
  let tid := s.nextGfxId + 1
  let s := setGfx (setGfx s sid []) tid []
  let s := { s with nextGfxId := s.nextGfxId + 2,
                    stroke := some sid, tip := some tid }
  let s :=
    match index with
    | none =>
      -- fresh container appended to the collection and to the surface
      let cid := s.nextContainerId
      let s := setContainer s cid [sid, tid]
      { s with nextContainerId := s.nextContainerId + 1,
               curStrokeContainer := some cid,
               strokes := s.strokes ++ [cid],
               strokeContainerChildren := s.strokeContainerChildren ++ [cid] }
    | some i =>
      match s.strokes[i]? with
      | none => { s with err := true }  -- `undefined.numChildren` throws
      | some cid =>
        let s := { s with curStrokeContainer := some cid }
        -- `removeChildAt(0)` when the container has children
        let s :=
          if 0 < (s.containers cid).length
          then setContainer s cid ((s.containers cid).drop 1)
          else s
        setContainer s cid (s.containers cid ++ [sid, tid])
  seq s fun s =>
    { s with mousePressed := true, events := s.events ++ [Ev.beginStroke] }

/-- Cusp branch of `updateStroke` (source lines 591-599): final tip at the
previous raw point, smoothed positions snapped there, rotation advanced by
π, stored thickness shrunk by the tip-taper factor. -/
noncomputable def cuspStep (s : FState) : FState :=
  let s := drawTip s true s.lastMouseX s.lastMouseY
  seq s fun s =>
    { s with
      smoothedMouseX := s.lastMouseX, lastSmoothedMouseX := s.lastMouseX,
      smoothedMouseY := s.lastMouseY, lastSmoothedMouseY := s.lastMouseY,
      lastRotation := s.lastRotation + Real.pi,
      lastThickness := s.tipTaperFactor * s.lastThickness }

/-- Quad patch appended to the stroke body on each update
(source lines 636-642). -/
def patchCmds (s : FState) (L0Cos0 L0Sin0 : ℝ) : List DrawCmd :=
  [DrawCmd.beginFill s.fillColor 1,
   DrawCmd.moveTo (s.lastSmoothedMouseX + L0Cos0) (s.lastSmoothedMouseY + L0Sin0),
   DrawCmd.quadraticCurveTo s.controlX1 s.controlY1
     (s.smoothedMouseX + s.L1Cos1) (s.smoothedMouseY + s.L1Sin1),
   DrawCmd.lineTo (s.smoothedMouseX - s.L1Cos1) (s.smoothedMouseY - s.L1Sin1),
   DrawCmd.quadraticCurveTo s.controlX2 s.controlY2
     (s.lastSmoothedMouseX - L0Cos0) (s.lastSmoothedMouseY - L0Sin0),
   DrawCmd.lineTo (s.lastSmoothedMouseX + L0Cos0) (s.lastSmoothedMouseY + L0Sin0),
   DrawCmd.endFill]

/-- Smoothing, thickness, patch geometry, tip redraw and state commit of
`updateStroke` (source lines 601-653). -/
noncomputable def mainStep (s : FState) (x y : ℝ) : FState :=
  let s := { s with
    smoothedMouseX := s.smoothedMouseX + s.smoothing * (x - s.smoothedMouseX),
    smoothedMouseY := s.smoothedMouseY + s.smoothing * (y - s.smoothedMouseY) }
  let dx := s.smoothedMouseX - s.lastSmoothedMouseX
  let dy := s.smoothedMouseY - s.lastSmoothedMouseY
  let dist := Real.sqrt (dx * dx + dy * dy)
  let targetLineThickness := s.minThickness + s.thicknessFactor * dist
  let s := { s with
    lineRotation := if dist ≠ 0 then Real.pi / 2 + atan2 dy dx else 0,
    lineThickness := s.lastThickness
      + s.thicknessSmoothingFactor * (targetLineThickness - s.lastThickness) }
  let sin0 := Real.sin s.lastRotation
  let cos0 := Real.cos s.lastRotation
  let sin1 := Real.sin s.lineRotation
  let cos1 := Real.cos s.lineRotation
  let L0Sin0 := s.lastThickness * sin0
  let L0Cos0 := s.lastThickness * cos0
  let s := { s with L1Sin1 := s.lineThickness * sin1,
                    L1Cos1 := s.lineThickness * cos1 }
  let controlVecX := 0.33 * dist * sin0
  let controlVecY := -0.33 * dist * cos0
  let s := { s with
    controlX1 := s.lastSmoothedMouseX + L0Cos0 + controlVecX,
    controlY1 := s.lastSmoothedMouseY + L0Sin0 + controlVecY,
    controlX2 := s.lastSmoothedMouseX - L0Cos0 + controlVecX,
    controlY2 := s.lastSmoothedMouseY - L0Sin0 + controlVecY }
  let s := gfxAppend s s.stroke (patchCmds s L0Cos0 L0Sin0)
  let s := seq s fun s => drawTip s false x y
  seq s fun s =>
    { s with
      lastSmoothedMouseX := s.smoothedMouseX,
      lastSmoothedMouseY := s.smoothedMouseY,
      lastRotation := s.lineRotation,
      lastThickness := s.lineThickness,
      lastMouseChangeVectorX := s.mouseDeltaX,
      lastMouseChangeVectorY := s.mouseDeltaY,
      lastMouseX := x, lastMouseY := y }

/-- Logging and raw-delta part of `updateStroke` (source lines 579-588),
run after the `_mousePressed` guard and before the cusp test. -/
def preStep (s : FState) (x y : ℝ) : FState :=
  let s := if s.cache
           then { s with xLog := s.xLog ++ [x], yLog := s.yLog ++ [y] }
           else s
  { s with mouseDeltaX := x - s.lastMouseX,
           mouseDeltaY := y - s.lastMouseY, mouseMoved := true }

/-- `updateStroke(x, y)` (source lines 573-654). -/
noncomputable def updateStroke (s : FState) (x y : ℝ) : FState :=
  if s.mousePressed = false then s
  else
    let s := preStep s x y
    let s :=
      if s.mouseDeltaX * s.lastMouseChangeVectorX
          + s.mouseDeltaY * s.lastMouseChangeVectorY < 0
      then cuspStep s else s
    mainStep s x y

/-- `endStrokeAt(x, y)` (source lines 517-536); note there is no
`_mousePressed` guard in the source. -/
noncomputable def endStrokeAt (s : FState) (x y : ℝ) : FState :=
  let s := if s.cache
           then { s with xLog := s.xLog ++ [x], yLog := s.yLog ++ [y] }
           else s
  let s := drawTip s true x y
  let s := seq s fun s =>
    match s.tip with
    | none => { s with err := true }   -- `this._tip.clear()` on null
    | some t => setGfx s t []
  let s := seq s fun s =>
    match s.curStrokeContainer, s.tip with
    | some c, some t => setContainer s c ((s.containers c).erase t)
    | _, _ => { s with err := true }
  let s := seq s fun s => { s with tip := none }
  let s := seq s fun s => { s with mousePressed := false }
  seq s fun s => { s with events := s.events ++ [Ev.endStroke] }

/-- `Array.prototype.splice(i, 1)`: for a negative start, elements are
counted from the end (`max (len + i) 0`); at most one element is removed. -/
def splice1 (l : List Nat) (i : ℤ) : List Nat :=
  l.eraseIdx (if i < 0 then ((l.length : ℤ) + i).toNat else i.toNat)

/-- `eraseStroke(index)` (source lines 544-562).  Only the upper bound is
checked; `_strokes[index]` for a negative index is `undefined`, so the
surface-tree removal is skipped while the splice still runs. -/
def eraseStroke (s : FState) (index : ℤ) : FState × Bool :=
  if index < (s.strokes.length : ℤ) then
    let sel : Option Nat :=
      if 0 ≤ index then s.strokes[index.toNat]? else none
    let s :=
      match sel with
      | some cid =>
        if s.strokeContainerChildren.contains cid
        then { s with strokeContainerChildren := s.strokeContainerChildren.erase cid }
        else s
      | none => s
    ({ s with strokes := splice1 s.strokes index }, true)
  else (s, false)

/-- Body of the per-stroke loop of `clear()` (source lines 427-439):
erase the drawable content of every child of stroke container `cid` and
remove the children. -/
def clearFold (t : FState) (cid : Nat) : FState :=
  let t := (t.containers cid).foldl (fun u gid => setGfx u gid []) t
  setContainer t cid []

/-- `clear()` (source lines 393-446).  Resets the listed state fields,
erases and removes every stroke's child graphics, empties the surface
container and the collection.  `_lastThickness`, `_lineThickness`, the
cached `_x`/`_y` logs and the `_stroke`/`_tip` references are untouched. -/
def clear (s : FState) : FState :=
  let s := { s with
    lastRotation := 0, lineRotation := 0, L1Sin1 := 0, L1Cos1 := 0,
    controlX1 := 0, controlY1 := 0, controlX2 := 0, controlY2 := 0,
    taperThickness := 0, taper := 0,
    mouseMoved := false,
    lastSmoothedMouseX := 0, lastSmoothedMouseY := 0,
    smoothedMouseX := 0, smoothedMouseY := 0,
    lastMouseX := 0, lastMouseY := 0,
    startX := 0, startY := 0,
    mouseDeltaX := 0, mouseDeltaY := 0,
    lastMouseChangeVectorX := 0, lastMouseChangeVectorY := 0,
    handlersAssigned := false, mousePressed := false }
  let s := s.strokes.foldl clearFold s
  { s with strokeContainerChildren := [], strokes := [] }

/-- The state built by the constructor (lines 254-291): defaults, empty
collection and logs, then `__pixiSetup()` and `clear()`. -/
def initState : FState where
  interactive := true
  cache := true
  smoothing := 0.3
  fillColor := 0x0000ff
  strokes := []
  strokeContainerChildren := []
  containers := fun _ => []
  nextContainerId := 0
  gfxContent := fun _ => []
  nextGfxId := 0
  curStrokeContainer := none
  stroke := none
  tip := none
  lastRotation := 0
  lineRotation := 0
  L1Sin1 := 0
  L1Cos1 := 0
  controlX1 := 0
  controlY1 := 0
  controlX2 := 0
  controlY2 := 0
  taperThickness := 0
  taper := 0
  handlersAssigned := false
  mouseMoved := false
  lastSmoothedMouseX := 0
  lastSmoothedMouseY := 0
  smoothedMouseX := 0
  smoothedMouseY := 0
  lastMouseX := 0
  lastMouseY := 0
  startX := 0
  startY := 0
  mouseDeltaX := 0
  mouseDeltaY := 0
  lastMouseChangeVectorX := 0
  lastMouseChangeVectorY := 0
  mousePressed := false
  lastThickness := 0
  lineThickness := 0
  tipTaperFactor := 0.8
  minThickness := 1
  thicknessFactor := 0.3
  thicknessSmoothingFactor := 0.3
  xLog := []
  yLog := []
  events := []
  err := false

/-- A call to one of the five public mutating operations. -/
inductive Op : Type
  | clearOp : Op
  | beginOp (x y : ℝ) (index : Option Nat) : Op
  | updateOp (x y : ℝ) : Op
  | endOp (x y : ℝ) : Op
  | eraseOp (i : ℤ) : Op

/-- Apply one public operation to the state. -/
noncomputable def applyOp (s : FState) : Op → FState
  | Op.clearOp => clear s
  | Op.beginOp x y index => beginStrokeAt s x y index
  | Op.updateOp x y => updateStroke s x y
  | Op.endOp x y => endStrokeAt s x y
  | Op.eraseOp i => (eraseStroke s i).1

/-- Run a sequence of public operations from a given state. -/
noncomputable def runOps (s : FState) : List Op → FState
  | [] => s
  | op :: ops => runOps (applyOp s op) ops

/-- The `lineThickness` value computed by each successive `updateStroke`
call at the given x-positions along the horizontal line `y = y0`. -/
noncomputable def thicknessTraceAt (s : FState) (y0 : ℝ) : List ℝ → List ℝ
  | [] => []
  | p :: ps =>
    let s' := updateStroke s p y0
    s'.lineThickness :: thicknessTraceAt s' y0 ps

/-- The successive sample-to-sample distances of a list of x-positions
(paired with a fixed y), starting from the previous sample `x0`. -/
noncomputable def distancesFrom (x0 : ℝ) : List ℝ → List ℝ
  | [] => []
  | p :: ps => |p - x0| :: distancesFrom p ps

/-- The block of drawing commands `__drawTip` appends to its target
graphics for a call at `(x, y)`: the rounded cap circle followed by the
tapered quad, evaluated at the taper values `__drawTip` installs. -/
def tipCmds (s : FState) (x y : ℝ) : List DrawCmd :=
  tipCircle { s with taperThickness := s.tipTaperFactor * s.lineThickness } x y
    ++ tipQuad { s with taperThickness := s.tipTaperFactor * s.lineThickness,
                        taper := s.tipTaperFactor } x y

/-- The exponentially smoothed x-position computed by `mainStep`
(source line 602). -/
noncomputable def smoothedNextX (s : FState) (x : ℝ) : ℝ :=
  s.smoothedMouseX + s.smoothing * (x - s.smoothedMouseX)

/-- The exponentially smoothed y-position computed by `mainStep`
(source line 603). -/
noncomputable def smoothedNextY (s : FState) (y : ℝ) : ℝ :=
  s.smoothedMouseY + s.smoothing * (y - s.smoothedMouseY)

/-- The smoothed displacement distance of one update (source lines 606-608). -/
noncomputable def stepDist (s : FState) (x y : ℝ) : ℝ :=
  Real.sqrt ((smoothedNextX s x - s.lastSmoothedMouseX)
      * (smoothedNextX s x - s.lastSmoothedMouseX)
    + (smoothedNextY s y - s.lastSmoothedMouseY)
      * (smoothedNextY s y - s.lastSmoothedMouseY))

/-- The smoothed line thickness of one cusp-free update
(source lines 610 and 613). -/
noncomputable def stepThickness (s : FState) (x y : ℝ) : ℝ :=
  s.lastThickness + s.thicknessSmoothingFactor
    * ((s.minThickness + s.thicknessFactor * stepDist s x y) - s.lastThickness)

/-- The line thickness of one update on which the cusp branch fired: the
stored thickness is first shrunk by the tip-taper factor and both smoothed
positions are snapped to the previous raw point, so the smoothed
displacement is `smoothing * (new raw - previous raw)`. -/
noncomputable def cuspStepThickness (s : FState) (x y : ℝ) : ℝ :=
  s.tipTaperFactor * s.lastThickness + s.thicknessSmoothingFactor
    * ((s.minThickness + s.thicknessFactor
        * Real.sqrt ((s.smoothing * (x - s.lastMouseX))
            * (s.smoothing * (x - s.lastMouseX))
          + (s.smoothing * (y - s.lastMouseY))
            * (s.smoothing * (y - s.lastMouseY))))
      - s.tipTaperFactor * s.lastThickness)

/-- Invariant carried through a run of same-direction horizontal updates:
the stroke is in progress with valid layers, the motion so far stayed on
the line `y = y0` heading in the `+x` direction, the committed smoothed
position lags the raw position by `(1 - smoothing)/smoothing` times the
last committed smoothed displacement `D`, and the committed thickness is
at most the thickness target of displacement `D`. -/
structure MonoInv (s : FState) (g t : Nat) (y0 D : ℝ) : Prop where
  pressed : s.mousePressed = true
  noErr : s.err = false
  strokeRef : s.stroke = some g
  tipRef : s.tip = some t
  smY : s.smoothedMouseY = y0
  lastSmY : s.lastSmoothedMouseY = y0
  lastMY : s.lastMouseY = y0
  smEq : s.smoothedMouseX = s.lastSmoothedMouseX
  vecY : s.lastMouseChangeVectorY = 0
  vecX : 0 ≤ s.lastMouseChangeVectorX
  Dnonneg : 0 ≤ D
  lag : s.lastMouseX - s.lastSmoothedMouseX = ((1 - s.smoothing) / s.smoothing) * D
  thick : s.lastThickness ≤ s.minThickness + s.thicknessFactor * D

/-- Directly-constructed drawing holding a single stroke (used to
instantiate universally quantified statements). -/
def oneStroke : FState := { initState with strokes := [0] }

/-- Directly-constructed mid-stroke state whose previous movement vector
points in the `+x` direction (used to instantiate universally quantified
statements). -/
def midStroke : FState :=
  { initState with mousePressed := true, stroke := some 0, tip := some 1,
                   curStrokeContainer := some 0,
                   lastMouseChangeVectorX := 1, lastMouseX := 1 }

/-- The state after one complete stroke `beginStrokeAt(0,0); endStrokeAt(1,1)`
from the initial state: no stroke is in progress and the tip reference is
null. -/
noncomputable def endedStroke : FState :=
  endStrokeAt (beginStrokeAt initState 0 0 none) 1 1

/-- The state after `beginStrokeAt(0,0); updateStroke(3,4)` from the initial
state: a stroke is in progress and a nonzero thickness has been committed. -/
noncomputable def midThickStroke : FState :=
  updateStroke (beginStrokeAt initState 0 0 none) 3 4

/-- The state after the completed stroke `beginStrokeAt(10,10);
updateStroke(11,11); endStrokeAt(12,12)` from the initial state: with
caching on, the coordinate log holds the three stroke points. -/
noncomputable def cachedStroke : FState :=
  endStrokeAt (updateStroke (beginStrokeAt initState 10 10 none) 11 11) 12 12

lemma drawTip_same (s : FState) (b : Bool) (x y : ℝ) :
    (drawTip s b x y).xLog = s.xLog ∧
    (drawTip s b x y).yLog = s.yLog ∧
    (drawTip s b x y).cache = s.cache ∧
    (drawTip s b x y).mousePressed = s.mousePressed ∧
    (drawTip s b x y).events = s.events ∧
    (drawTip s b x y).strokes = s.strokes ∧
    (drawTip s b x y).strokeContainerChildren = s.strokeContainerChildren ∧
    (drawTip s b x y).containers = s.containers ∧
    (drawTip s b x y).curStrokeContainer = s.curStrokeContainer ∧
    (drawTip s b x y).stroke = s.stroke ∧
    (drawTip s b x y).tip = s.tip ∧
    (drawTip s b x y).smoothedMouseX = s.smoothedMouseX ∧
    (drawTip s b x y).smoothedMouseY = s.smoothedMouseY ∧
    (drawTip s b x y).lastSmoothedMouseX = s.lastSmoothedMouseX ∧
    (drawTip s b x y).lastSmoothedMouseY = s.lastSmoothedMouseY ∧
    (drawTip s b x y).lastMouseX = s.lastMouseX ∧
    (drawTip s b x y).lastMouseY = s.lastMouseY ∧
    (drawTip s b x y).mouseDeltaX = s.mouseDeltaX ∧
    (drawTip s b x y).mouseDeltaY = s.mouseDeltaY ∧
    (drawTip s b x y).lastMouseChangeVectorX = s.lastMouseChangeVectorX ∧
    (drawTip s b x y).lastMouseChangeVectorY = s.lastMouseChangeVectorY ∧
    (drawTip s b x y).lastThickness = s.lastThickness ∧
    (drawTip s b x y).lineThickness = s.lineThickness ∧
    (drawTip s b x y).lastRotation = s.lastRotation ∧
    (drawTip s b x y).smoothing = s.smoothing ∧
    (drawTip s b x y).minThickness = s.minThickness ∧
    (drawTip s b x y).thicknessFactor = s.thicknessFactor ∧
    (drawTip s b x y).thicknessSmoothingFactor = s.thicknessSmoothingFactor ∧
    (drawTip s b x y).tipTaperFactor = s.tipTaperFactor ∧
    (drawTip s b x y).nextGfxId = s.nextGfxId ∧
    (drawTip s b x y).nextContainerId = s.nextContainerId := by
  cases b <;> cases htip : s.tip <;> cases hstr : s.stroke <;> cases herr : s.err <;>
    simp [drawTip, gfxAppend, seq, setGfx, htip, hstr, herr]

lemma drawTip_err_final (s : FState) (g : Nat) (x y : ℝ) (hg : s.stroke = some g) :
    (drawTip s true x y).err = s.err := by
  cases herr : s.err <;> simp [drawTip, gfxAppend, seq, setGfx, hg, herr]

lemma drawTip_err_nonfinal (s : FState) (t : Nat) (x y : ℝ) (ht : s.tip = some t) :
    (drawTip s false x y).err = s.err := by
  cases herr : s.err <;> simp [drawTip, gfxAppend, seq, setGfx, ht, herr]

lemma drawTip_gfx_final (s : FState) (g : Nat) (x y : ℝ)
    (he : s.err = false) (hg : s.stroke = some g) :
    (drawTip s true x y).gfxContent g = s.gfxContent g ++ tipCmds s x y := by
  simp [drawTip, gfxAppend, seq, setGfx, tipCmds, tipCircle, tipQuad, he, hg]

lemma preStep_spec (s : FState) (x y : ℝ) :
    (preStep s x y).xLog = (if s.cache then s.xLog ++ [x] else s.xLog) ∧
    (preStep s x y).yLog = (if s.cache then s.yLog ++ [y] else s.yLog) ∧
    (preStep s x y).mouseDeltaX = x - s.lastMouseX ∧
    (preStep s x y).mouseDeltaY = y - s.lastMouseY ∧
    (preStep s x y).cache = s.cache ∧
    (preStep s x y).mousePressed = s.mousePressed ∧
    (preStep s x y).err = s.err ∧
    (preStep s x y).stroke = s.stroke ∧
    (preStep s x y).tip = s.tip ∧
    (preStep s x y).events = s.events ∧
    (preStep s x y).strokes = s.strokes ∧
    (preStep s x y).lastMouseX = s.lastMouseX ∧
    (preStep s x y).lastMouseY = s.lastMouseY ∧
    (preStep s x y).lastMouseChangeVectorX = s.lastMouseChangeVectorX ∧
    (preStep s x y).lastMouseChangeVectorY = s.lastMouseChangeVectorY ∧
    (preStep s x y).smoothedMouseX = s.smoothedMouseX ∧
    (preStep s x y).smoothedMouseY = s.smoothedMouseY ∧
    (preStep s x y).lastSmoothedMouseX = s.lastSmoothedMouseX ∧
    (preStep s x y).lastSmoothedMouseY = s.lastSmoothedMouseY ∧
    (preStep s x y).lastThickness = s.lastThickness ∧
    (preStep s x y).lastRotation = s.lastRotation ∧
    (preStep s x y).smoothing = s.smoothing ∧
    (preStep s x y).minThickness = s.minThickness ∧
    (preStep s x y).thicknessFactor = s.thicknessFactor ∧
    (preStep s x y).thicknessSmoothingFactor = s.thicknessSmoothingFactor ∧
    (preStep s x y).tipTaperFactor = s.tipTaperFactor ∧
    (preStep s x y).curStrokeContainer = s.curStrokeContainer := by
  cases hc : s.cache <;> simp [preStep, hc]

lemma cuspStep_spec (s : FState) (g : Nat) (he : s.err = false) (hg : s.stroke = some g) :
    (cuspStep s).smoothedMouseX = s.lastMouseX ∧
    (cuspStep s).lastSmoothedMouseX = s.lastMouseX ∧
    (cuspStep s).smoothedMouseY = s.lastMouseY ∧
    (cuspStep s).lastSmoothedMouseY = s.lastMouseY ∧
    (cuspStep s).lastRotation = s.lastRotation + Real.pi ∧
    (cuspStep s).lastThickness = s.tipTaperFactor * s.lastThickness ∧
    (cuspStep s).gfxContent g = s.gfxContent g ++ tipCmds s s.lastMouseX s.lastMouseY ∧
    (cuspStep s).err = false := by
  obtain ⟨hxL, hyL, hca, hmp, hev, hstk, hscc, hcon, hcur, hstr2, htip2, hsmx,
    hsmy, hlsx, hlsy, hlmx, hlmy, hdx, hdy, hvx, hvy, hlt, hlint, hlrot, hsm,
    hmin, htf, htsf, httf, hng, hnc⟩ := drawTip_same s true s.lastMouseX s.lastMouseY
  have herr : (drawTip s true s.lastMouseX s.lastMouseY).err = false := by
    rw [drawTip_err_final s g _ _ hg, he]
  have hgfx := drawTip_gfx_final s g s.lastMouseX s.lastMouseY he hg
  simp [cuspStep, seq, herr, hlmx, hlmy, hlrot, hlt, httf, hgfx]


lemma mainStep_same (s : FState) (x y : ℝ) :
    (mainStep s x y).xLog = s.xLog ∧
    (mainStep s x y).yLog = s.yLog ∧
    (mainStep s x y).cache = s.cache ∧
    (mainStep s x y).mousePressed = s.mousePressed ∧
    (mainStep s x y).events = s.events ∧
    (mainStep s x y).strokes = s.strokes ∧
    (mainStep s x y).strokeContainerChildren = s.strokeContainerChildren ∧
    (mainStep s x y).containers = s.containers ∧
    (mainStep s x y).curStrokeContainer = s.curStrokeContainer ∧
    (mainStep s x y).stroke = s.stroke ∧
    (mainStep s x y).tip = s.tip ∧
    (mainStep s x y).smoothing = s.smoothing ∧
    (mainStep s x y).minThickness = s.minThickness ∧
    (mainStep s x y).thicknessFactor = s.thicknessFactor ∧
    (mainStep s x y).thicknessSmoothingFactor = s.thicknessSmoothingFactor ∧
    (mainStep s x y).tipTaperFactor = s.tipTaperFactor ∧
    (mainStep s x y).nextGfxId = s.nextGfxId ∧
    (mainStep s x y).nextContainerId = s.nextContainerId := by
  cases htip : s.tip <;> cases hstr : s.stroke <;> cases herr : s.err <;>
    simp [mainStep, drawTip, gfxAppend, seq, setGfx, htip, hstr, herr]

lemma mainStep_spec (s : FState) (g t : Nat) (x y : ℝ)
    (he : s.err = false) (hg : s.stroke = some g) (ht : s.tip = some t) :
    (mainStep s x y).lastThickness = stepThickness s x y ∧
    (mainStep s x y).lineThickness = stepThickness s x y ∧
    (mainStep s x y).smoothedMouseX = smoothedNextX s x ∧
    (mainStep s x y).lastSmoothedMouseX = smoothedNextX s x ∧
    (mainStep s x y).smoothedMouseY = smoothedNextY s y ∧
    (mainStep s x y).lastSmoothedMouseY = smoothedNextY s y ∧
    (mainStep s x y).lastMouseX = x ∧
    (mainStep s x y).lastMouseY = y ∧
    (mainStep s x y).lastMouseChangeVectorX = s.mouseDeltaX ∧
    (mainStep s x y).lastMouseChangeVectorY = s.mouseDeltaY ∧
    (mainStep s x y).err = false := by
  simp [mainStep, drawTip, gfxAppend, seq, setGfx, stepThickness, stepDist,
    smoothedNextX, smoothedNextY, he, hg, ht]

lemma updateStroke_noop (s : FState) (x y : ℝ) (h : s.mousePressed = false) :
    updateStroke s x y = s := by
  simp [updateStroke, h]

lemma updateStroke_branches (s : FState) (x y : ℝ) (h : s.mousePressed = true) :
    updateStroke s x y =
      if (x - s.lastMouseX) * s.lastMouseChangeVectorX
          + (y - s.lastMouseY) * s.lastMouseChangeVectorY < 0
      then mainStep (cuspStep (preStep s x y)) x y
      else mainStep (preStep s x y) x y := by
  cases hc : s.cache <;> simp [updateStroke, preStep, h, hc] <;> split <;> rfl

lemma cuspStep_same (s : FState) :
    (cuspStep s).xLog = s.xLog ∧
    (cuspStep s).yLog = s.yLog ∧
    (cuspStep s).cache = s.cache ∧
    (cuspStep s).mousePressed = s.mousePressed ∧
    (cuspStep s).events = s.events ∧
    (cuspStep s).strokes = s.strokes ∧
    (cuspStep s).stroke = s.stroke ∧
    (cuspStep s).tip = s.tip ∧
    (cuspStep s).lastMouseX = s.lastMouseX ∧
    (cuspStep s).lastMouseY = s.lastMouseY ∧
    (cuspStep s).mouseDeltaX = s.mouseDeltaX ∧
    (cuspStep s).mouseDeltaY = s.mouseDeltaY ∧
    (cuspStep s).smoothing = s.smoothing ∧
    (cuspStep s).minThickness = s.minThickness ∧
    (cuspStep s).thicknessFactor = s.thicknessFactor ∧
    (cuspStep s).thicknessSmoothingFactor = s.thicknessSmoothingFactor ∧
    (cuspStep s).tipTaperFactor = s.tipTaperFactor ∧
    (cuspStep s).curStrokeContainer = s.curStrokeContainer := by
  obtain ⟨hxL, hyL, hca, hmp, hev, hstk, hscc, hcon, hcur, hstr2, htip2, hsmx,
    hsmy, hlsx, hlsy, hlmx, hlmy, hdx, hdy, hvx, hvy, hlt, hlint, hlrot, hsm,
    hmin, htf, htsf, httf, hng, hnc⟩ := drawTip_same s true s.lastMouseX s.lastMouseY
  cases herr2 : (drawTip s true s.lastMouseX s.lastMouseY).err <;>
    simp [cuspStep, seq, herr2, hxL, hyL, hca, hmp, hev, hstk, hstr2, htip2,
      hlmx, hlmy, hdx, hdy, hsm, hmin, htf, htsf, httf, hcur]

lemma updateStroke_noCusp_spec (s : FState) (g t : Nat) (x y : ℝ)
    (hp : s.mousePressed = true) (hg : s.stroke = some g) (ht : s.tip = some t)
    (he : s.err = false)
    (hnc : ¬ ((x - s.lastMouseX) * s.lastMouseChangeVectorX
        + (y - s.lastMouseY) * s.lastMouseChangeVectorY < 0)) :
    (updateStroke s x y).lastThickness = stepThickness s x y ∧
    (updateStroke s x y).lineThickness = stepThickness s x y ∧
    (updateStroke s x y).smoothedMouseX = smoothedNextX s x ∧
    (updateStroke s x y).lastSmoothedMouseX = smoothedNextX s x ∧
    (updateStroke s x y).smoothedMouseY = smoothedNextY s y ∧
    (updateStroke s x y).lastSmoothedMouseY = smoothedNextY s y ∧
    (updateStroke s x y).lastMouseX = x ∧
    (updateStroke s x y).lastMouseY = y ∧
    (updateStroke s x y).lastMouseChangeVectorX = x - s.lastMouseX ∧
    (updateStroke s x y).lastMouseChangeVectorY = y - s.lastMouseY ∧
    (updateStroke s x y).mousePressed = true ∧
    (updateStroke s x y).err = false ∧
    (updateStroke s x y).stroke = some g ∧
    (updateStroke s x y).tip = some t ∧
    (updateStroke s x y).smoothing = s.smoothing ∧
    (updateStroke s x y).minThickness = s.minThickness ∧
    (updateStroke s x y).thicknessFactor = s.thicknessFactor ∧
    (updateStroke s x y).thicknessSmoothingFactor = s.thicknessSmoothingFactor ∧
    (updateStroke s x y).tipTaperFactor = s.tipTaperFactor ∧
    (updateStroke s x y).cache = s.cache ∧
    (updateStroke s x y).curStrokeContainer = s.curStrokeContainer ∧
    (updateStroke s x y).strokes = s.strokes ∧
    (updateStroke s x y).events = s.events := by
  rw [updateStroke_branches s x y hp, if_neg hnc]
  obtain ⟨pxL, pyL, pdx, pdy, pca, pmp, perr, pstr, ptip, pev, pstk, plmx, plmy,
    pvx, pvy, psmx, psmy, plsx, plsy, plt, plrot, psm, pmin, ptf, ptsf, pttf,
    pcur⟩ := preStep_spec s x y
  have hpe : (preStep s x y).err = false := by rw [perr, he]
  have hpg : (preStep s x y).stroke = some g := by rw [pstr, hg]
  have hpt : (preStep s x y).tip = some t := by rw [ptip, ht]
  obtain ⟨m1, m2, m3, m4, m5, m6, m7, m8, m9, m10, m11⟩ :=
    mainStep_spec (preStep s x y) g t x y hpe hpg hpt
  obtain ⟨n1, n2, n3, n4, n5, n6, n7, n8, n9, n10, n11, n12, n13, n14, n15, n16,
    n17, n18⟩ := mainStep_same (preStep s x y) x y
  have hstepT : stepThickness (preStep s x y) x y = stepThickness s x y := by
    cases hc : s.cache <;>
      simp [stepThickness, stepDist, smoothedNextX, smoothedNextY, preStep, hc]
  have hsnX : smoothedNextX (preStep s x y) x = smoothedNextX s x := by
    cases hc : s.cache <;> simp [smoothedNextX, preStep, hc]
  have hsnY : smoothedNextY (preStep s x y) y = smoothedNextY s y := by
    cases hc : s.cache <;> simp [smoothedNextY, preStep, hc]
  exact ⟨m1.trans hstepT, m2.trans hstepT, m3.trans hsnX, m4.trans hsnX,
    m5.trans hsnY, m6.trans hsnY, m7, m8, m9.trans pdx, m10.trans pdy,
    n4.trans (pmp.trans hp), m11, n10.trans hpg, n11.trans hpt, n12.trans psm,
    n13.trans pmin, n14.trans ptf, n15.trans ptsf, n16.trans pttf, n3.trans pca,
    n9.trans pcur, n6.trans pstk, n5.trans pev⟩

lemma updateStroke_logs (s : FState) (x y : ℝ) (hp : s.mousePressed = true) :
    (updateStroke s x y).xLog = (if s.cache then s.xLog ++ [x] else s.xLog) ∧
    (updateStroke s x y).yLog = (if s.cache then s.yLog ++ [y] else s.yLog) := by
  rw [updateStroke_branches s x y hp]
  obtain ⟨pxL, pyL, -, -, -, -, -, -, -, -, -, -, -, -, -, -, -, -, -, -, -, -,
    -, -, -, -, -⟩ := preStep_spec s x y
  split
  · obtain ⟨c1, c2, -, -, -, -, -, -, -, -, -, -, -, -, -, -, -, -⟩ :=
      cuspStep_same (preStep s x y)
    obtain ⟨n1, n2, -, -, -, -, -, -, -, -, -, -, -, -, -, -, -, -⟩ :=
      mainStep_same (cuspStep (preStep s x y)) x y
    exact ⟨n1.trans (c1.trans pxL), n2.trans (c2.trans pyL)⟩
  · obtain ⟨n1, n2, -, -, -, -, -, -, -, -, -, -, -, -, -, -, -, -⟩ :=
      mainStep_same (preStep s x y) x y
    exact ⟨n1.trans pxL, n2.trans pyL⟩

lemma updateStroke_cusp_thickness (s : FState) (g t : Nat) (x y : ℝ)
    (hp : s.mousePressed = true) (hg : s.stroke = some g) (ht : s.tip = some t)
    (he : s.err = false)
    (hcd : (x - s.lastMouseX) * s.lastMouseChangeVectorX
        + (y - s.lastMouseY) * s.lastMouseChangeVectorY < 0) :
    (updateStroke s x y).lineThickness = cuspStepThickness s x y ∧
    (updateStroke s x y).lastThickness = cuspStepThickness s x y := by
  rw [updateStroke_branches s x y hp, if_pos hcd]
  obtain ⟨pxL, pyL, pdx, pdy, pca, pmp, perr, pstr, ptip, pev, pstk, plmx, plmy,
    pvx, pvy, psmx, psmy, plsx, plsy, plt, plrot, psm, pmin, ptf, ptsf, pttf,
    pcur⟩ := preStep_spec s x y
  have hpe : (preStep s x y).err = false := by rw [perr, he]
  have hpg : (preStep s x y).stroke = some g := by rw [pstr, hg]
  obtain ⟨csmx, clsx, csmy, clsy, crot, clt, cgfx, cerr⟩ :=
    cuspStep_spec (preStep s x y) g hpe hpg
  obtain ⟨c1, c2, c3, c4, c5, c6, c7, c8, c9, c10, c11, c12, c13, c14, c15, c16,
    c17, c18⟩ := cuspStep_same (preStep s x y)
  have hcg : (cuspStep (preStep s x y)).stroke = some g := by rw [c7, pstr, hg]
  have hct : (cuspStep (preStep s x y)).tip = some t := by rw [c8, ptip, ht]
  obtain ⟨m1, m2, -, -, -, -, -, -, -, -, -⟩ :=
    mainStep_spec (cuspStep (preStep s x y)) g t x y cerr hcg hct
  have hst : stepThickness (cuspStep (preStep s x y)) x y
      = cuspStepThickness s x y := by
    rw [stepThickness, cuspStepThickness, stepDist, smoothedNextX, smoothedNextY]
    simp only [csmx, clsx, csmy, clsy, clt, c13, c14, c15, c16, c17, plmx, plmy,
      psm, pmin, ptf, ptsf, pttf, plt]
    ring_nf
  exact ⟨m2.trans hst, m1.trans hst⟩

lemma endStrokeAt_logs (s : FState) (x y : ℝ) :
    (endStrokeAt s x y).xLog = (if s.cache then s.xLog ++ [x] else s.xLog) ∧
    (endStrokeAt s x y).yLog = (if s.cache then s.yLog ++ [y] else s.yLog) := by
  cases hca : s.cache <;> cases hstr : s.stroke <;> cases htip : s.tip <;>
    cases hcur : s.curStrokeContainer <;> cases herr : s.err <;>
      simp [endStrokeAt, drawTip, gfxAppend, seq, setGfx, setContainer,
        hca, hstr, htip, hcur, herr]

lemma endStrokeAt_good (s : FState) (g t c : Nat) (x y : ℝ)
    (he : s.err = false) (hg : s.stroke = some g) (ht : s.tip = some t)
    (hc : s.curStrokeContainer = some c) :
    (endStrokeAt s x y).err = false ∧
    (endStrokeAt s x y).tip = none ∧
    (endStrokeAt s x y).mousePressed = false ∧
    (endStrokeAt s x y).stroke = some g ∧
    (endStrokeAt s x y).cache = s.cache ∧
    (endStrokeAt s x y).events = s.events ++ [Ev.endStroke] ∧
    (endStrokeAt s x y).strokes = s.strokes ∧
    (endStrokeAt s x y).curStrokeContainer = some c := by
  cases hca : s.cache <;>
    simp [endStrokeAt, drawTip, gfxAppend, seq, setGfx, setContainer,
      he, hg, ht, hc, hca]

lemma endStrokeAt_err_of_no_tip (s : FState) (g : Nat) (x y : ℝ)
    (he : s.err = false) (hg : s.stroke = some g) (ht : s.tip = none) :
    (endStrokeAt s x y).err = true := by
  cases hca : s.cache <;>
    simp [endStrokeAt, drawTip, gfxAppend, seq, setGfx, setContainer,
      he, hg, ht, hca]

lemma beginStrokeAt_none_spec (s : FState) (x y : ℝ) (he : s.err = false) :
    (beginStrokeAt s x y none).mousePressed = true ∧
    (beginStrokeAt s x y none).err = false ∧
    (beginStrokeAt s x y none).events = s.events ++ [Ev.beginStroke] ∧
    (beginStrokeAt s x y none).strokes = s.strokes ++ [s.nextContainerId] ∧
    (beginStrokeAt s x y none).xLog = (if s.cache then [x] else []) ∧
    (beginStrokeAt s x y none).yLog = (if s.cache then [y] else []) ∧
    (beginStrokeAt s x y none).stroke = some s.nextGfxId ∧
    (beginStrokeAt s x y none).tip = some (s.nextGfxId + 1) ∧
    (beginStrokeAt s x y none).curStrokeContainer = some s.nextContainerId ∧
    (beginStrokeAt s x y none).cache = s.cache ∧
    (beginStrokeAt s x y none).smoothing = s.smoothing ∧
    (beginStrokeAt s x y none).minThickness = s.minThickness ∧
    (beginStrokeAt s x y none).thicknessFactor = s.thicknessFactor ∧
    (beginStrokeAt s x y none).thicknessSmoothingFactor = s.thicknessSmoothingFactor ∧
    (beginStrokeAt s x y none).tipTaperFactor = s.tipTaperFactor ∧
    (beginStrokeAt s x y none).lastMouseX = x ∧
    (beginStrokeAt s x y none).lastMouseY = y ∧
    (beginStrokeAt s x y none).smoothedMouseX = x ∧
    (beginStrokeAt s x y none).smoothedMouseY = y ∧
    (beginStrokeAt s x y none).lastSmoothedMouseX = x ∧
    (beginStrokeAt s x y none).lastSmoothedMouseY = y ∧
    (beginStrokeAt s x y none).lastThickness = 0 ∧
    (beginStrokeAt s x y none).lineThickness = s.lineThickness ∧
    (beginStrokeAt s x y none).lastMouseChangeVectorX = 0 ∧
    (beginStrokeAt s x y none).lastMouseChangeVectorY = 0 ∧
    (beginStrokeAt s x y none).lastRotation = Real.pi / 2 ∧
    (beginStrokeAt s x y none).strokeContainerChildren
      = s.strokeContainerChildren ++ [s.nextContainerId] := by
  cases hc : s.cache <;> simp [beginStrokeAt, setGfx, setContainer, seq, he, hc]

lemma beginStrokeAt_some_spec (s : FState) (x y : ℝ) (i cid : Nat)
    (he : s.err = false) (hi : s.strokes[i]? = some cid) :
    (beginStrokeAt s x y (some i)).strokes = s.strokes ∧
    (beginStrokeAt s x y (some i)).mousePressed = true ∧
    (beginStrokeAt s x y (some i)).err = false ∧
    (beginStrokeAt s x y (some i)).containers cid
      = (s.containers cid).drop 1 ++ [s.nextGfxId, s.nextGfxId + 1] ∧
    (beginStrokeAt s x y (some i)).xLog = (if s.cache then [x] else []) ∧
    (beginStrokeAt s x y (some i)).yLog = (if s.cache then [y] else []) ∧
    (beginStrokeAt s x y (some i)).curStrokeContainer = some cid ∧
    (beginStrokeAt s x y (some i)).events = s.events ++ [Ev.beginStroke] ∧
    (beginStrokeAt s x y (some i)).stroke = some s.nextGfxId ∧
    (beginStrokeAt s x y (some i)).tip = some (s.nextGfxId + 1) := by
  cases hc : s.cache <;>
    simp [beginStrokeAt, setGfx, setContainer, seq, he, hc, hi] <;>
    rcases hl : s.containers cid with _ | ⟨a, l⟩ <;> simp [hl]

lemma gfxFoldl_shape (l : List Nat) :
    ∀ s : FState, ∃ G, List.foldl (fun u gid => setGfx u gid []) s l
      = { s with gfxContent := G } := by
  induction l with
  | nil => intro s; exact ⟨s.gfxContent, rfl⟩
  | cons a l ih =>
    intro s
    obtain ⟨G, hG⟩ := ih (setGfx s a [])
    exact ⟨G, by rw [List.foldl_cons, hG]; rfl⟩

lemma clearFold_shape (s : FState) (cid : Nat) :
    ∃ C G, clearFold s cid = { s with containers := C, gfxContent := G } := by
  obtain ⟨G, hG⟩ := gfxFoldl_shape (s.containers cid) s
  refine ⟨fun n => if n = cid then [] else s.containers n, G, ?_⟩
  simp only [clearFold]
  rw [hG]
  rfl

lemma clearFoldl_shape (l : List Nat) :
    ∀ s : FState, ∃ C G, List.foldl clearFold s l
      = { s with containers := C, gfxContent := G } := by
  induction l with
  | nil => intro s; exact ⟨s.containers, s.gfxContent, rfl⟩
  | cons a l ih =>
    intro s
    obtain ⟨C0, G0, h0⟩ := clearFold_shape s a
    obtain ⟨C, G, hG⟩ := ih (clearFold s a)
    refine ⟨C, G, ?_⟩
    rw [List.foldl_cons, hG, h0]

lemma clear_spec (s : FState) :
    ∃ C G, clear s = { s with
      lastRotation := 0, lineRotation := 0, L1Sin1 := 0, L1Cos1 := 0,
      controlX1 := 0, controlY1 := 0, controlX2 := 0, controlY2 := 0,
      taperThickness := 0, taper := 0, mouseMoved := false,
      lastSmoothedMouseX := 0, lastSmoothedMouseY := 0,
      smoothedMouseX := 0, smoothedMouseY := 0,
      lastMouseX := 0, lastMouseY := 0, startX := 0, startY := 0,
      mouseDeltaX := 0, mouseDeltaY := 0,
      lastMouseChangeVectorX := 0, lastMouseChangeVectorY := 0,
      handlersAssigned := false, mousePressed := false,
      strokes := [], strokeContainerChildren := [],
      containers := C, gfxContent := G } := by
  obtain ⟨C, G, h⟩ := clearFoldl_shape s.strokes { s with
    lastRotation := 0, lineRotation := 0, L1Sin1 := 0, L1Cos1 := 0,
    controlX1 := 0, controlY1 := 0, controlX2 := 0, controlY2 := 0,
    taperThickness := 0, taper := 0, mouseMoved := false,
    lastSmoothedMouseX := 0, lastSmoothedMouseY := 0,
    smoothedMouseX := 0, smoothedMouseY := 0,
    lastMouseX := 0, lastMouseY := 0, startX := 0, startY := 0,
    mouseDeltaX := 0, mouseDeltaY := 0,
    lastMouseChangeVectorX := 0, lastMouseChangeVectorY := 0,
    handlersAssigned := false, mousePressed := false }
  exact ⟨C, G, by simp only [clear]; rw [h]⟩

lemma eraseStroke_out_of_range (s : FState) (i : ℤ)
    (h : (s.strokes.length : ℤ) ≤ i) : eraseStroke s i = (s, false) := by
  rw [eraseStroke, if_neg (by omega)]

lemma eraseStroke_logs (s : FState) (i : ℤ) :
    (eraseStroke s i).1.xLog = s.xLog ∧ (eraseStroke s i).1.yLog = s.yLog := by
  rw [eraseStroke]
  split
  · rcases hsel : (if 0 ≤ i then s.strokes[i.toNat]? else none) with _ | cid
    · simp [hsel]
    · simp only [hsel]
      split <;> simp
  · exact ⟨rfl, rfl⟩

lemma applyOp_log_len (s : FState) (op : Op)
    (h : s.xLog.length = s.yLog.length) :
    (applyOp s op).xLog.length = (applyOp s op).yLog.length := by
  cases op with
  | clearOp =>
    obtain ⟨C, G, hc⟩ := clear_spec s
    simp [applyOp, hc, h]
  | beginOp x y idx =>
    cases idx with
    | none =>
      cases hc : s.cache <;> cases herr : s.err <;>
        simp [applyOp, beginStrokeAt, setGfx, setContainer, seq, hc, herr]
    | some i =>
      rcases hgi : s.strokes[i]? with _ | cid
      · cases hc : s.cache <;> cases herr : s.err <;>
          simp [applyOp, beginStrokeAt, setGfx, setContainer, seq, hc, herr, hgi]
      · cases hc : s.cache <;> cases herr : s.err <;>
          by_cases hlen : 0 < (s.containers cid).length <;>
            simp [applyOp, beginStrokeAt, setGfx, setContainer, seq, hc, herr,
              hgi, hlen]
  | updateOp x y =>
    cases hp : s.mousePressed with
    | false => simp [applyOp, updateStroke_noop s x y hp, h]
    | true =>
      obtain ⟨hx, hy⟩ := updateStroke_logs s x y hp
      cases hc : s.cache <;> simp [applyOp, hx, hy, hc, h]
  | endOp x y =>
    obtain ⟨hx, hy⟩ := endStrokeAt_logs s x y
    cases hc : s.cache <;> simp [applyOp, hx, hy, hc, h]
  | eraseOp i =>
    obtain ⟨hx, hy⟩ := eraseStroke_logs s i
    simp [applyOp, hx, hy, h]

lemma runOps_log_len (ops : List Op) :
    ∀ s : FState, s.xLog.length = s.yLog.length →
      (runOps s ops).xLog.length = (runOps s ops).yLog.length := by
  induction ops with
  | nil => intro s h; exact h
  | cons op ops ih => intro s h; exact ih (applyOp s op) (applyOp_log_len s op h)

lemma updateStroke_carry (s : FState) (x y : ℝ) (hp : s.mousePressed = true) :
    (updateStroke s x y).mousePressed = true ∧
    (updateStroke s x y).cache = s.cache ∧
    (updateStroke s x y).strokes = s.strokes ∧
    (updateStroke s x y).curStrokeContainer = s.curStrokeContainer ∧
    (updateStroke s x y).stroke = s.stroke ∧
    (updateStroke s x y).tip = s.tip ∧
    (updateStroke s x y).events = s.events := by
  rw [updateStroke_branches s x y hp]
  obtain ⟨-, -, -, -, pca, pmp, -, pstr, ptip, pev, pstk, -, -, -, -, -, -, -,
    -, -, -, -, -, -, -, -, pcur⟩ := preStep_spec s x y
  split
  · obtain ⟨-, -, c3, c4, c5, c6, c7, c8, -, -, -, -, -, -, -, -, -, c18⟩ :=
      cuspStep_same (preStep s x y)
    obtain ⟨-, -, n3, n4, n5, n6, -, -, n9, n10, n11, -, -, -, -, -, -, -⟩ :=
      mainStep_same (cuspStep (preStep s x y)) x y
    exact ⟨n4.trans (c4.trans (pmp.trans hp)), n3.trans (c3.trans pca),
      n6.trans (c6.trans pstk), n9.trans (c18.trans pcur),
      n10.trans (c7.trans pstr), n11.trans (c8.trans ptip),
      n5.trans (c5.trans pev)⟩
  · obtain ⟨-, -, n3, n4, n5, n6, -, -, n9, n10, n11, -, -, -, -, -, -, -⟩ :=
      mainStep_same (preStep s x y) x y
    exact ⟨n4.trans (pmp.trans hp), n3.trans pca, n6.trans pstk, n9.trans pcur,
      n10.trans pstr, n11.trans ptip, n5.trans pev⟩

lemma eraseStroke_in_range (s : FState) (i : ℤ) (h0 : 0 ≤ i)
    (hl : i < (s.strokes.length : ℤ)) :
    (eraseStroke s i).2 = true ∧
    (eraseStroke s i).1.strokes = s.strokes.eraseIdx i.toNat := by
  rw [eraseStroke, if_pos hl]
  have hneg : ¬ i < 0 := by omega
  rcases hsel : (if 0 ≤ i then s.strokes[i.toNat]? else none) with _ | cid
  · simp [hsel, splice1, hneg]
  · simp only [hsel]
    split <;> simp [splice1, hneg]

lemma eraseStroke_last (s : FState) (h : 1 ≤ s.strokes.length) :
    (eraseStroke s (-1)).2 = true ∧
    (eraseStroke s (-1)).1.strokes = s.strokes.dropLast := by
  have hl : (-1 : ℤ) < (s.strokes.length : ℤ) := by omega
  rw [eraseStroke, if_pos hl]
  have hsel : (if (0 : ℤ) ≤ -1 then s.strokes[(-1 : ℤ).toNat]? else none)
      = none := by norm_num
  have hidx : ((s.strokes.length : ℤ) + -1).toNat = s.strokes.length - 1 := by
    omega
  have hdl : s.strokes.dropLast = s.strokes.eraseIdx (s.strokes.length - 1) :=
    List.dropLast_eq_eraseIdx (by omega)
  simp [hsel, splice1, hidx, hdl]

/-- Claim C1 (amended): with no stroke in progress (`_mousePressed` false),
`updateStroke(x, y)` is a no-op: the entire state, drawable content and
cached logs included, is unchanged and no error is raised.  (`endStrokeAt`
is not guarded and is not a no-op; see the counterexample.) -/
theorem C1_noActive_updateStroke_noop (s : FState) (x y : ℝ)
    (h : s.mousePressed = false) : updateStroke s x y = s :=
  updateStroke_noop s x y h

/-- Witness for C1: the initial state has no stroke in progress and an
`updateStroke` call leaves it unchanged. -/
theorem C1_witness :
    initState.mousePressed = false ∧ updateStroke initState 5 6 = initState :=
  ⟨rfl, C1_noActive_updateStroke_noop initState 5 6 rfl⟩

/-- Counterexample to C1 as stated: after a completed stroke no stroke is
in progress, yet `endStrokeAt(2,2)` is not a no-op — the unguarded body
dereferences the null `_tip` (`this._tip.clear()`) and raises an error
(after having already pushed onto the cached point log and redrawn into
the stroke graphics). -/
theorem C1_endStrokeAt_counterexample :
    endedStroke.mousePressed = false ∧ endedStroke.err = false ∧
    (endStrokeAt endedStroke 2 2).err = true := by
  obtain ⟨bp, be, -, -, -, -, bs, bt, bc, -, -, -, -, -, -, -, -, -, -, -, -,
    -, -, -, -, -, -⟩ := beginStrokeAt_none_spec initState 0 0 rfl
  obtain ⟨ee, et, ep, es, -, -, -, -⟩ :=
    endStrokeAt_good (beginStrokeAt initState 0 0 none) initState.nextGfxId
      (initState.nextGfxId + 1) initState.nextContainerId 1 1 be bs bt bc
  exact ⟨ep, ee,
    endStrokeAt_err_of_no_tip endedStroke initState.nextGfxId 2 2 ee es et⟩

/-- Claim C2: `eraseStroke(i)` with `0 <= i < numStrokes()` returns true,
removes stroke `i` (later strokes shift down) and decrements the count;
with `i >= numStrokes()` it returns false and leaves the state unchanged. -/
theorem C2_eraseStroke_bounds (s : FState) (i : ℤ) :
    (0 ≤ i → i < (s.strokes.length : ℤ) →
      (eraseStroke s i).2 = true ∧
      (eraseStroke s i).1.strokes = s.strokes.eraseIdx i.toNat ∧
      (eraseStroke s i).1.strokes.length = s.strokes.length - 1) ∧
    ((s.strokes.length : ℤ) ≤ i → eraseStroke s i = (s, false)) := by
  constructor
  · intro h0 hl
    obtain ⟨h1, h2⟩ := eraseStroke_in_range s i h0 hl
    refine ⟨h1, h2, ?_⟩
    rw [h2]
    have hlt : i.toNat < s.strokes.length := by omega
    have := List.length_eraseIdx_add_one hlt
    omega
  · exact eraseStroke_out_of_range s i

/-- Witness for C2 at a one-stroke drawing: erasing index 0 succeeds and
empties the collection; erasing index 5 fails and changes nothing. -/
theorem C2_witness :
    ((0 : ℤ) < (oneStroke.strokes.length : ℤ) ∧
      (eraseStroke oneStroke 0).2 = true ∧
      (eraseStroke oneStroke 0).1.strokes
        = oneStroke.strokes.eraseIdx (0 : ℤ).toNat ∧
      (eraseStroke oneStroke 0).1.strokes.length
        = oneStroke.strokes.length - 1) ∧
    ((oneStroke.strokes.length : ℤ) ≤ 5 ∧
      eraseStroke oneStroke 5 = (oneStroke, false)) := by
  have hlen : oneStroke.strokes.length = 1 := rfl
  constructor
  · exact ⟨by simp [hlen],
      (C2_eraseStroke_bounds oneStroke 0).1 le_rfl (by simp [hlen])⟩
  · exact ⟨by simp [hlen], (C2_eraseStroke_bounds oneStroke 5).2 (by simp [hlen])⟩

/-- Claim C9: every public operation pushes to both coordinate logs or
resets both together, so after any sequence of operations from the initial
state `x()` and `y()` have the same length. -/
theorem C9_log_lengths_equal (ops : List Op) :
    (runOps initState ops).xLog.length = (runOps initState ops).yLog.length :=
  runOps_log_len ops initState rfl

/-- Claim C10: on a drawing with at least one stroke, `eraseStroke(-1)`
passes the (upper-bound-only) guard, returns true, and JavaScript splice
semantics remove the last stroke. -/
theorem C10_eraseStroke_negative (s : FState) (h : 1 ≤ s.strokes.length) :
    (eraseStroke s (-1)).2 = true ∧
    (eraseStroke s (-1)).1.strokes = s.strokes.dropLast ∧
    (eraseStroke s (-1)).1.strokes.length = s.strokes.length - 1 := by
  obtain ⟨h1, h2⟩ := eraseStroke_last s h
  refine ⟨h1, h2, ?_⟩
  rw [h2, List.length_dropLast]

/-- Witness for C10 at a one-stroke drawing. -/
theorem C10_witness :
    1 ≤ oneStroke.strokes.length ∧
    ((eraseStroke oneStroke (-1)).2 = true ∧
      (eraseStroke oneStroke (-1)).1.strokes = oneStroke.strokes.dropLast ∧
      (eraseStroke oneStroke (-1)).1.strokes.length
        = oneStroke.strokes.length - 1) :=
  ⟨le_refl 1, C10_eraseStroke_negative oneStroke (le_refl 1)⟩

/-- Claim C5: with caching enabled, the sequence `beginStrokeAt(10,10);
updateStroke(12,11); updateStroke(15,9); endStrokeAt(20,10)` leaves the
coordinate log with `x() = [10,12,15,20]` and `y() = [10,11,9,10]`. -/
theorem C5_cached_coordinate_log (s : FState) (hc : s.cache = true)
    (he : s.err = false) :
    (endStrokeAt (updateStroke (updateStroke (beginStrokeAt s 10 10 none)
        12 11) 15 9) 20 10).xLog = [10, 12, 15, 20] ∧
    (endStrokeAt (updateStroke (updateStroke (beginStrokeAt s 10 10 none)
        12 11) 15 9) 20 10).yLog = [10, 11, 9, 10] := by
  obtain ⟨bp, -, -, -, bxl, byl, -, -, -, bca, -, -, -, -, -, -, -, -, -, -, -,
    -, -, -, -, -, -⟩ := beginStrokeAt_none_spec s 10 10 he
  have hbc : (beginStrokeAt s 10 10 none).cache = true := by rw [bca, hc]
  have hbx : (beginStrokeAt s 10 10 none).xLog = [10] := by
    rw [bxl, hc]; rfl
  have hby : (beginStrokeAt s 10 10 none).yLog = [10] := by
    rw [byl, hc]; rfl
  obtain ⟨u1x, u1y⟩ := updateStroke_logs (beginStrokeAt s 10 10 none) 12 11 bp
  obtain ⟨c1p, c1c, -, -, -, -, -⟩ :=
    updateStroke_carry (beginStrokeAt s 10 10 none) 12 11 bp
  have h1c : (updateStroke (beginStrokeAt s 10 10 none) 12 11).cache = true := by
    rw [c1c, hbc]
  have h1x : (updateStroke (beginStrokeAt s 10 10 none) 12 11).xLog
      = [10, 12] := by simp [u1x, hbc, hbx]
  have h1y : (updateStroke (beginStrokeAt s 10 10 none) 12 11).yLog
      = [10, 11] := by simp [u1y, hbc, hby]
  obtain ⟨u2x, u2y⟩ :=
    updateStroke_logs (updateStroke (beginStrokeAt s 10 10 none) 12 11) 15 9 c1p
  obtain ⟨c2p, c2c, -, -, -, -, -⟩ :=
    updateStroke_carry (updateStroke (beginStrokeAt s 10 10 none) 12 11) 15 9 c1p
  have h2c : (updateStroke (updateStroke (beginStrokeAt s 10 10 none) 12 11)
      15 9).cache = true := by rw [c2c, h1c]
  have h2x : (updateStroke (updateStroke (beginStrokeAt s 10 10 none) 12 11)
      15 9).xLog = [10, 12, 15] := by simp [u2x, h1c, h1x]
  have h2y : (updateStroke (updateStroke (beginStrokeAt s 10 10 none) 12 11)
      15 9).yLog = [10, 11, 9] := by simp [u2y, h1c, h1y]
  obtain ⟨ex, ey⟩ := endStrokeAt_logs
    (updateStroke (updateStroke (beginStrokeAt s 10 10 none) 12 11) 15 9) 20 10
  exact ⟨by simp [ex, h2c, h2x], by simp [ey, h2c, h2y]⟩

/-- Witness for C5 from the freshly constructed directive state (caching is
on by default). -/
theorem C5_witness :
    initState.cache = true ∧ initState.err = false ∧
    ((endStrokeAt (updateStroke (updateStroke (beginStrokeAt initState 10 10
        none) 12 11) 15 9) 20 10).xLog = [10, 12, 15, 20] ∧
     (endStrokeAt (updateStroke (updateStroke (beginStrokeAt initState 10 10
        none) 12 11) 15 9) 20 10).yLog = [10, 11, 9, 10]) :=
  ⟨rfl, rfl, C5_cached_coordinate_log initState rfl rfl⟩

/-- Claim C6 (amended): `clear()` always empties the stroke collection and
resets the building-state fields — last raw position, smoothed positions,
movement vector, rotation, mouse-pressed flag — to zero/false, without
raising an error and without emitting any notification; however the last
and current thickness fields are NOT reset (the source `clear()` never
touches `_lastThickness`/`_lineThickness`). -/
theorem C6_clear_resets (s : FState) :
    (clear s).strokes = [] ∧
    (clear s).lastMouseX = 0 ∧ (clear s).lastMouseY = 0 ∧
    (clear s).smoothedMouseX = 0 ∧ (clear s).smoothedMouseY = 0 ∧
    (clear s).lastSmoothedMouseX = 0 ∧ (clear s).lastSmoothedMouseY = 0 ∧
    (clear s).lastMouseChangeVectorX = 0 ∧
    (clear s).lastMouseChangeVectorY = 0 ∧
    (clear s).lastRotation = 0 ∧
    (clear s).mousePressed = false ∧
    (clear s).err = s.err ∧
    (clear s).events = s.events ∧
    (clear s).lastThickness = s.lastThickness ∧
    (clear s).lineThickness = s.lineThickness := by
  obtain ⟨C, G, h⟩ := clear_spec s
  simp [h]

/-- Counterexample to C6 as stated: after `beginStrokeAt(0,0);
updateStroke(3,4)` the committed thickness is `0.435`; `clear()` leaves it
unchanged, so the "last thickness" field is not reset to zero. -/
theorem C6_counterexample : (clear midThickStroke).lastThickness ≠ 0 := by
  obtain ⟨bp, be, -, -, -, -, bstr, btip, -, -, bsm, bmin, btf, btsf, -, blmx,
    blmy, bsmx, bsmy, blsx, blsy, blt, -, bvx, bvy, -, -⟩ :=
    beginStrokeAt_none_spec initState 0 0 rfl
  have hnc : ¬ ((3 - (beginStrokeAt initState 0 0 none).lastMouseX)
      * (beginStrokeAt initState 0 0 none).lastMouseChangeVectorX
      + (4 - (beginStrokeAt initState 0 0 none).lastMouseY)
      * (beginStrokeAt initState 0 0 none).lastMouseChangeVectorY < 0) := by
    rw [bvx, bvy]
    simp
  obtain ⟨hlt, -⟩ := updateStroke_noCusp_spec (beginStrokeAt initState 0 0 none)
    initState.nextGfxId (initState.nextGfxId + 1) 3 4 bp bstr btip be hnc
  have hd : stepDist (beginStrokeAt initState 0 0 none) 3 4 = 1.5 := by
    rw [stepDist, smoothedNextX, smoothedNextY, bsmx, bsmy, blsx, blsy, bsm]
    have harg : ((0 : ℝ) + initState.smoothing * (3 - 0) - 0)
          * (0 + initState.smoothing * (3 - 0) - 0)
        + (0 + initState.smoothing * (4 - 0) - 0)
          * (0 + initState.smoothing * (4 - 0) - 0) = 1.5 ^ 2 := by
      rw [show initState.smoothing = (0.3 : ℝ) from rfl]
      norm_num
    rw [harg, Real.sqrt_sq (by norm_num : (0 : ℝ) ≤ 1.5)]
  have hval : stepThickness (beginStrokeAt initState 0 0 none) 3 4 = 0.435 := by
    rw [stepThickness, hd, blt, bmin, btf, btsf,
      show initState.minThickness = (1 : ℝ) from rfl,
      show initState.thicknessFactor = (0.3 : ℝ) from rfl,
      show initState.thicknessSmoothingFactor = (0.3 : ℝ) from rfl]
    norm_num
  obtain ⟨C, G, h⟩ := clear_spec midThickStroke
  have : (clear midThickStroke).lastThickness = (0.435 : ℝ) := by
    rw [h]
    show midThickStroke.lastThickness = (0.435 : ℝ)
    rw [show midThickStroke.lastThickness
        = (updateStroke (beginStrokeAt initState 0 0 none) 3 4).lastThickness
      from rfl, hlt, hval]
  rw [this]
  norm_num

/-- Claim C7 (amended): restarting a stroke at an existing index leaves
`numStrokes()` unchanged and replaces the group's first child (the
accumulated geometry layer for a stroke that was begun and ended normally)
with fresh stroke and tip layers; the directive-level cached point log is
reset like on any begin (per-stroke cached points are not retained). -/
theorem C7_restart_at_index (s : FState) (x y : ℝ) (i cid : Nat)
    (he : s.err = false) (hi : s.strokes[i]? = some cid) :
    (beginStrokeAt s x y (some i)).strokes.length = s.strokes.length ∧
    (beginStrokeAt s x y (some i)).containers cid
      = (s.containers cid).drop 1 ++ [s.nextGfxId, s.nextGfxId + 1] ∧
    (beginStrokeAt s x y (some i)).xLog = (if s.cache then [x] else []) ∧
    (beginStrokeAt s x y (some i)).yLog = (if s.cache then [y] else []) := by
  obtain ⟨h1, -, -, h4, h5, h6, -, -, -, -⟩ :=
    beginStrokeAt_some_spec s x y i cid he hi
  exact ⟨by rw [h1], h4, h5, h6⟩

/-- Witness for C7 at a one-stroke drawing. -/
theorem C7_witness :
    oneStroke.err = false ∧ oneStroke.strokes[0]? = some 0 ∧
    ((beginStrokeAt oneStroke 5 5 (some 0)).strokes.length
        = oneStroke.strokes.length ∧
     (beginStrokeAt oneStroke 5 5 (some 0)).containers 0
        = (oneStroke.containers 0).drop 1
          ++ [oneStroke.nextGfxId, oneStroke.nextGfxId + 1] ∧
     (beginStrokeAt oneStroke 5 5 (some 0)).xLog
        = (if oneStroke.cache then [5] else []) ∧
     (beginStrokeAt oneStroke 5 5 (some 0)).yLog
        = (if oneStroke.cache then [5] else [])) :=
  ⟨rfl, rfl, C7_restart_at_index oneStroke 5 5 0 0 rfl rfl⟩

/-- Counterexample to C7's "not clearing its cached points": the log holds
`[10,11,12]` after a completed cached stroke, and restarting that stroke
at index 0 resets the log to `[0]`. -/
theorem C7_counterexample :
    cachedStroke.xLog = [10, 11, 12] ∧
    (beginStrokeAt cachedStroke 0 0 (some 0)).xLog = [0] := by
  obtain ⟨bp, be, -, bstk, bxl, -, bstr, btip, bcur, bca, -, -, -, -, -, -, -,
    -, -, -, -, -, -, bvx, bvy, -, -⟩ :=
    beginStrokeAt_none_spec initState 10 10 rfl
  have hbstk : (beginStrokeAt initState 10 10 none).strokes = [0] := by
    rw [bstk]; rfl
  have hbc : (beginStrokeAt initState 10 10 none).cache = true := by
    rw [bca]; exact rfl
  have hbx : (beginStrokeAt initState 10 10 none).xLog = [10] := by
    rw [bxl]; rfl
  have hnc : ¬ ((11 - (beginStrokeAt initState 10 10 none).lastMouseX)
      * (beginStrokeAt initState 10 10 none).lastMouseChangeVectorX
      + (11 - (beginStrokeAt initState 10 10 none).lastMouseY)
      * (beginStrokeAt initState 10 10 none).lastMouseChangeVectorY < 0) := by
    rw [bvx, bvy]
    simp
  obtain ⟨-, -, -, -, -, -, -, -, -, -, up, uerr, ustr, utip, -, -, -, -, -,
    uca, ucur, ustk, -⟩ := updateStroke_noCusp_spec
    (beginStrokeAt initState 10 10 none) initState.nextGfxId
    (initState.nextGfxId + 1) 11 11 bp bstr btip be hnc
  obtain ⟨u1x, -⟩ := updateStroke_logs (beginStrokeAt initState 10 10 none)
    11 11 bp
  have hux : (updateStroke (beginStrokeAt initState 10 10 none) 11 11).xLog
      = [10, 11] := by simp [u1x, hbc, hbx]
  have hucur : (updateStroke (beginStrokeAt initState 10 10 none)
      11 11).curStrokeContainer = some initState.nextContainerId := by
    rw [ucur, bcur]
  obtain ⟨eerr, -, -, -, eca, -, estk, -⟩ :=
    endStrokeAt_good (updateStroke (beginStrokeAt initState 10 10 none) 11 11)
      initState.nextGfxId (initState.nextGfxId + 1) initState.nextContainerId
      12 12 uerr ustr utip hucur
  obtain ⟨ex, -⟩ := endStrokeAt_logs
    (updateStroke (beginStrokeAt initState 10 10 none) 11 11) 12 12
  have hcx : cachedStroke.xLog = [10, 11, 12] := by
    show (endStrokeAt (updateStroke (beginStrokeAt initState 10 10 none) 11 11)
      12 12).xLog = [10, 11, 12]
    have huca : (updateStroke (beginStrokeAt initState 10 10 none)
        11 11).cache = true := by rw [uca, hbc]
    simp [ex, huca, hux]
  have hcstk : cachedStroke.strokes = [0] := by
    show (endStrokeAt (updateStroke (beginStrokeAt initState 10 10 none) 11 11)
      12 12).strokes = [0]
    rw [estk, ustk, hbstk]
  have hidx : cachedStroke.strokes[0]? = some 0 := by rw [hcstk]; rfl
  have hcerr : cachedStroke.err = false := eerr
  have hcca : cachedStroke.cache = true := by
    show (endStrokeAt (updateStroke (beginStrokeAt initState 10 10 none) 11 11)
      12 12).cache = true
    rw [eca, uca, hbc]
  obtain ⟨-, -, -, -, rx, -, -, -, -, -⟩ :=
    beginStrokeAt_some_spec cachedStroke 0 0 0 0 hcerr hidx
  exact ⟨hcx, by simp [rx, hcca]⟩

/-- Claim C3: on an update with a stroke in progress, exactly when the dot
product of the raw delta with the stored movement vector is negative,
`updateStroke` runs the cusp branch before smoothing: it (a) renders a
final tip cap permanently into the stroke layer at the previous raw point,
(b) snaps current and last smoothed positions to the previous raw point,
(c) adds π to the stored rotation, and (d) multiplies the stored last
thickness by the tip-taper factor; when the dot product is non-negative
the cusp branch is skipped entirely. -/
theorem C3_cusp_branch (s : FState) (g : Nat) (x y : ℝ)
    (he : s.err = false) (hg : s.stroke = some g) (hp : s.mousePressed = true) :
    ((x - s.lastMouseX) * s.lastMouseChangeVectorX
        + (y - s.lastMouseY) * s.lastMouseChangeVectorY < 0 →
      updateStroke s x y = mainStep (cuspStep (preStep s x y)) x y ∧
      (cuspStep (preStep s x y)).gfxContent g
        = (preStep s x y).gfxContent g
          ++ tipCmds (preStep s x y) s.lastMouseX s.lastMouseY ∧
      (cuspStep (preStep s x y)).smoothedMouseX = s.lastMouseX ∧
      (cuspStep (preStep s x y)).lastSmoothedMouseX = s.lastMouseX ∧
      (cuspStep (preStep s x y)).smoothedMouseY = s.lastMouseY ∧
      (cuspStep (preStep s x y)).lastSmoothedMouseY = s.lastMouseY ∧
      (cuspStep (preStep s x y)).lastRotation = s.lastRotation + Real.pi ∧
      (cuspStep (preStep s x y)).lastThickness
        = s.tipTaperFactor * s.lastThickness) ∧
    (¬ ((x - s.lastMouseX) * s.lastMouseChangeVectorX
        + (y - s.lastMouseY) * s.lastMouseChangeVectorY < 0) →
      updateStroke s x y = mainStep (preStep s x y) x y) := by
  obtain ⟨-, -, -, -, -, -, perr, pstr, -, -, -, plmx, plmy, -, -, -, -, -, -,
    plt, plrot, -, -, -, -, pttf, -⟩ := preStep_spec s x y
  have hpe : (preStep s x y).err = false := perr.trans he
  have hpg : (preStep s x y).stroke = some g := pstr.trans hg
  obtain ⟨csmx, clsx, csmy, clsy, crot, clt, cgfx, -⟩ :=
    cuspStep_spec (preStep s x y) g hpe hpg
  constructor
  · intro hlt
    rw [plmx, plmy] at cgfx
    exact ⟨(updateStroke_branches s x y hp).trans (if_pos hlt), cgfx,
      csmx.trans plmx, clsx.trans plmx, csmy.trans plmy, clsy.trans plmy,
      crot.trans (by rw [plrot]), clt.trans (by rw [pttf, plt])⟩
  · intro hge
    exact (updateStroke_branches s x y hp).trans (if_neg hge)

/-- Witness for C3 at a mid-stroke state whose previous movement vector is
`(1, 0)`: updating at `(-1, 0)` reverses direction and fires the cusp. -/
theorem C3_witness :
    (((-1 : ℝ) - midStroke.lastMouseX) * midStroke.lastMouseChangeVectorX
      + ((0 : ℝ) - midStroke.lastMouseY) * midStroke.lastMouseChangeVectorY
      < 0) ∧
    updateStroke midStroke (-1) 0
      = mainStep (cuspStep (preStep midStroke (-1) 0)) (-1) 0 ∧
    (cuspStep (preStep midStroke (-1) 0)).lastRotation
      = midStroke.lastRotation + Real.pi ∧
    (cuspStep (preStep midStroke (-1) 0)).lastThickness
      = midStroke.tipTaperFactor * midStroke.lastThickness := by
  have hdot : ((-1 : ℝ) - midStroke.lastMouseX)
      * midStroke.lastMouseChangeVectorX
      + ((0 : ℝ) - midStroke.lastMouseY)
      * midStroke.lastMouseChangeVectorY < 0 := by
    norm_num [midStroke, initState]
  have h := (C3_cusp_branch midStroke 0 (-1) 0 rfl rfl rfl).1 hdot
  exact ⟨hdot, h.1, h.2.2.2.2.2.2.1, h.2.2.2.2.2.2.2⟩

/-- Claim C4: immediately after `beginStrokeAt`, the stored movement vector
is `(0, 0)`, so the first `updateStroke` computes a zero dot product, never
fires the cusp branch, and raises no error. -/
theorem C4_first_update_safe (s : FState) (x0 y0 x1 y1 : ℝ)
    (he : s.err = false) :
    (beginStrokeAt s x0 y0 none).lastMouseChangeVectorX = 0 ∧
    (beginStrokeAt s x0 y0 none).lastMouseChangeVectorY = 0 ∧
    (x1 - (beginStrokeAt s x0 y0 none).lastMouseX)
        * (beginStrokeAt s x0 y0 none).lastMouseChangeVectorX
      + (y1 - (beginStrokeAt s x0 y0 none).lastMouseY)
        * (beginStrokeAt s x0 y0 none).lastMouseChangeVectorY = 0 ∧
    updateStroke (beginStrokeAt s x0 y0 none) x1 y1
      = mainStep (preStep (beginStrokeAt s x0 y0 none) x1 y1) x1 y1 ∧
    (updateStroke (beginStrokeAt s x0 y0 none) x1 y1).err = false := by
  obtain ⟨bp, be, -, -, -, -, bstr, btip, -, -, -, -, -, -, -, -, -, -, -, -,
    -, -, -, bvx, bvy, -, -⟩ := beginStrokeAt_none_spec s x0 y0 he
  have hz : (x1 - (beginStrokeAt s x0 y0 none).lastMouseX)
      * (beginStrokeAt s x0 y0 none).lastMouseChangeVectorX
      + (y1 - (beginStrokeAt s x0 y0 none).lastMouseY)
      * (beginStrokeAt s x0 y0 none).lastMouseChangeVectorY = 0 := by
    rw [bvx, bvy]; ring
  have hnc : ¬ ((x1 - (beginStrokeAt s x0 y0 none).lastMouseX)
      * (beginStrokeAt s x0 y0 none).lastMouseChangeVectorX
      + (y1 - (beginStrokeAt s x0 y0 none).lastMouseY)
      * (beginStrokeAt s x0 y0 none).lastMouseChangeVectorY < 0) := by
    rw [hz]; exact lt_irrefl 0
  obtain ⟨-, -, -, -, -, -, -, -, -, -, -, uerr, -⟩ :=
    updateStroke_noCusp_spec (beginStrokeAt s x0 y0 none) s.nextGfxId
      (s.nextGfxId + 1) x1 y1 bp bstr btip be hnc
  exact ⟨bvx, bvy, hz,
    (updateStroke_branches (beginStrokeAt s x0 y0 none) x1 y1 bp).trans
      (if_neg hnc), uerr⟩

/-- Witness for C4 from the initial state. -/
theorem C4_witness :
    initState.err = false ∧
    ((beginStrokeAt initState 1 2 none).lastMouseChangeVectorX = 0 ∧
     (beginStrokeAt initState 1 2 none).lastMouseChangeVectorY = 0 ∧
     ((3 : ℝ) - (beginStrokeAt initState 1 2 none).lastMouseX)
         * (beginStrokeAt initState 1 2 none).lastMouseChangeVectorX
       + ((4 : ℝ) - (beginStrokeAt initState 1 2 none).lastMouseY)
         * (beginStrokeAt initState 1 2 none).lastMouseChangeVectorY = 0 ∧
     updateStroke (beginStrokeAt initState 1 2 none) 3 4
       = mainStep (preStep (beginStrokeAt initState 1 2 none) 3 4) 3 4 ∧
     (updateStroke (beginStrokeAt initState 1 2 none) 3 4).err = false) :=
  ⟨rfl, C4_first_update_safe initState 1 2 3 4 rfl⟩

lemma mono_step (s : FState) (g t : Nat) (y0 D p : ℝ)
    (inv : MonoInv s g t y0 D)
    (hsm0 : 0 < s.smoothing) (hsm1 : s.smoothing < 1)
    (hgam : 0 ≤ s.thicknessFactor)
    (hb0 : 0 ≤ s.thicknessSmoothingFactor)
    (hb1 : s.thicknessSmoothingFactor ≤ 1)
    (hd : D < p - s.lastMouseX) :
    MonoInv (updateStroke s p y0) g t y0
      (s.smoothing * (p - s.lastMouseX) + (1 - s.smoothing) * D) ∧
    s.lastThickness ≤ (updateStroke s p y0).lineThickness ∧
    (updateStroke s p y0).lastThickness = (updateStroke s p y0).lineThickness ∧
    s.smoothing * (p - s.lastMouseX) + (1 - s.smoothing) * D
      ≤ p - s.lastMouseX ∧
    (updateStroke s p y0).smoothing = s.smoothing ∧
    (updateStroke s p y0).minThickness = s.minThickness ∧
    (updateStroke s p y0).thicknessFactor = s.thicknessFactor ∧
    (updateStroke s p y0).thicknessSmoothingFactor
      = s.thicknessSmoothingFactor ∧
    (updateStroke s p y0).lastMouseX = p := by
  have hd0 : 0 < p - s.lastMouseX := lt_of_le_of_lt inv.Dnonneg hd
  have hnc : ¬ ((p - s.lastMouseX) * s.lastMouseChangeVectorX
      + (y0 - s.lastMouseY) * s.lastMouseChangeVectorY < 0) := by
    rw [inv.lastMY, inv.vecY, sub_self, mul_zero, add_zero]
    exact not_lt.mpr (mul_nonneg hd0.le inv.vecX)
  obtain ⟨u1, u2, u3, u4, u5, u6, u7, u8, u9, u10, u11, u12, u13, u14, u15,
    u16, u17, u18, u19, u20, u21, u22, u23⟩ :=
    updateStroke_noCusp_spec s g t p y0 inv.pressed inv.strokeRef inv.tipRef
      inv.noErr hnc
  have hne : s.smoothing ≠ 0 := ne_of_gt hsm0
  have hlm : s.lastMouseX = s.lastSmoothedMouseX
      + ((1 - s.smoothing) / s.smoothing) * D := by
    have := inv.lag; linarith
  have hdx : smoothedNextX s p - s.lastSmoothedMouseX
      = s.smoothing * (p - s.lastMouseX) + (1 - s.smoothing) * D := by
    rw [smoothedNextX, inv.smEq, hlm]
    field_simp
    ring
  have hD'0 : 0 ≤ s.smoothing * (p - s.lastMouseX) + (1 - s.smoothing) * D := by
    have h1 := mul_nonneg hsm0.le hd0.le
    have h2 := mul_nonneg (by linarith : (0:ℝ) ≤ 1 - s.smoothing) inv.Dnonneg
    linarith
  have hsmY : smoothedNextY s y0 = y0 := by
    rw [smoothedNextY, inv.smY]; ring
  have hdy : smoothedNextY s y0 - s.lastSmoothedMouseY = 0 := by
    rw [hsmY, inv.lastSmY, sub_self]
  have hdist : stepDist s p y0
      = s.smoothing * (p - s.lastMouseX) + (1 - s.smoothing) * D := by
    rw [stepDist, hdx, hdy, mul_zero, add_zero]
    rw [show (s.smoothing * (p - s.lastMouseX) + (1 - s.smoothing) * D)
        * (s.smoothing * (p - s.lastMouseX) + (1 - s.smoothing) * D)
        = (s.smoothing * (p - s.lastMouseX) + (1 - s.smoothing) * D) ^ 2
      by ring]
    exact Real.sqrt_sq hD'0
  have hDle : s.smoothing * (p - s.lastMouseX) + (1 - s.smoothing) * D
      ≤ p - s.lastMouseX := by
    have h2 := mul_le_mul_of_nonneg_left hd.le
      (by linarith : (0:ℝ) ≤ 1 - s.smoothing)
    linarith
  have hDge : D ≤ s.smoothing * (p - s.lastMouseX) + (1 - s.smoothing) * D := by
    have h2 := mul_le_mul_of_nonneg_left hd.le hsm0.le
    linarith
  have htarget : s.lastThickness ≤ s.minThickness + s.thicknessFactor
      * (s.smoothing * (p - s.lastMouseX) + (1 - s.smoothing) * D) := by
    have h2 := mul_le_mul_of_nonneg_left hDge hgam
    have h3 := inv.thick
    linarith
  have hstep_mono : s.lastThickness ≤ stepThickness s p y0 := by
    rw [stepThickness, hdist]
    have h2 := mul_nonneg hb0 (sub_nonneg.mpr htarget)
    linarith
  have hstep_le : stepThickness s p y0 ≤ s.minThickness + s.thicknessFactor
      * (s.smoothing * (p - s.lastMouseX) + (1 - s.smoothing) * D) := by
    rw [stepThickness, hdist]
    nlinarith [mul_nonneg (by linarith : (0:ℝ) ≤ 1 - s.thicknessSmoothingFactor)
      (sub_nonneg.mpr htarget)]
  refine ⟨?_, by rw [u2]; exact hstep_mono, u1.trans u2.symm, hDle, u15, u16,
    u17, u18, u7⟩
  exact {
    pressed := u11
    noErr := u12
    strokeRef := u13
    tipRef := u14
    smY := u5.trans hsmY
    lastSmY := u6.trans hsmY
    lastMY := u8
    smEq := u3.trans u4.symm
    vecY := by rw [u10, inv.lastMY, sub_self]
    vecX := by rw [u9]; exact hd0.le
    Dnonneg := hD'0
    lag := by
      rw [u7, u4, u15, smoothedNextX, inv.smEq, hlm]
      field_simp
      ring
    thick := by rw [u1, u16, u17]; exact hstep_le }

lemma chain'_lt_of_le_head {a b : ℝ} {l : List ℝ}
    (h : List.Chain' (· < ·) (a :: l)) (hba : b ≤ a) :
    List.Chain' (· < ·) (b :: l) := by
  cases l with
  | nil => simp
  | cons c l =>
    rw [List.chain'_cons] at h ⊢
    exact ⟨lt_of_le_of_lt hba h.1, h.2⟩

lemma mono_chain (ps : List ℝ) :
    ∀ (s : FState) (g t : Nat) (y0 D : ℝ), MonoInv s g t y0 D →
      0 < s.smoothing → s.smoothing < 1 →
      0 ≤ s.thicknessFactor → 0 ≤ s.thicknessSmoothingFactor →
      s.thicknessSmoothingFactor ≤ 1 →
      List.Chain' (· < ·) (s.lastMouseX :: ps) →
      List.Chain' (· < ·) (D :: distancesFrom s.lastMouseX ps) →
      List.Chain' (· ≤ ·) (s.lastThickness :: thicknessTraceAt s y0 ps) := by
  induction ps with
  | nil =>
    intro s g t y0 D _ _ _ _ _ _ _ _
    simp [thicknessTraceAt]
  | cons p ps ih =>
    intro s g t y0 D inv h1 h2 h4 h5 h6 hpos hch
    have hplt : s.lastMouseX < p := (List.chain'_cons.mp hpos).1
    have habs : |p - s.lastMouseX| = p - s.lastMouseX :=
      abs_of_pos (by linarith)
    rw [distancesFrom, habs] at hch
    have hd : D < p - s.lastMouseX := (List.chain'_cons.mp hch).1
    obtain ⟨inv', hmono, heq, hDle, e15, e16, e17, e18, e7⟩ :=
      mono_step s g t y0 D p inv h1 h2 h4 h5 h6 hd
    rw [thicknessTraceAt, List.chain'_cons]
    refine ⟨hmono, ?_⟩
    have htail := ih (updateStroke s p y0) g t y0
      (s.smoothing * (p - s.lastMouseX) + (1 - s.smoothing) * D) inv'
      (by rw [e15]; exact h1) (by rw [e15]; exact h2)
      (by rw [e17]; exact h4) (by rw [e18]; exact h5) (by rw [e18]; exact h6)
      (by rw [e7]; exact (List.chain'_cons.mp hpos).2)
      (by
        rw [e7]
        exact chain'_lt_of_le_head (List.chain'_cons.mp hch).2 hDle)
    rw [heq] at htail
    exact htail

/-- Claim C8 (amended): holding the configuration fixed (smoothing factor
in `(0,1)`, nonnegative minimum thickness and thickness factor,
thickness-smoothing factor in `[0,1]`), a stroke begun at any point and
updated at collinear samples moving in one fixed direction with strictly
increasing, positive sample-to-sample distances produces a non-decreasing
sequence of computed `lineThickness` values.  (With direction reversals
permitted the statement is false — see the counterexample — because the
cusp branch shrinks the stored thickness by the taper factor.) -/
theorem C8_thickness_monotone (s : FState) (x0 y0 : ℝ) (ps : List ℝ)
    (he : s.err = false) (h1 : 0 < s.smoothing) (h2 : s.smoothing < 1)
    (h3 : 0 ≤ s.minThickness)
    (h4 : 0 ≤ s.thicknessFactor) (h5 : 0 ≤ s.thicknessSmoothingFactor)
    (h6 : s.thicknessSmoothingFactor ≤ 1)
    (hpos : List.Chain' (· < ·) (x0 :: ps))
    (hch : List.Chain' (· < ·) ((0 : ℝ) :: distancesFrom x0 ps)) :
    List.Chain' (· ≤ ·)
      (thicknessTraceAt (beginStrokeAt s x0 y0 none) y0 ps) := by
  obtain ⟨bp, be, -, -, -, -, bstr, btip, -, -, bsm, bmin, btf, btsf, -, blmx,
    blmy, bsmx, bsmy, blsx, blsy, blt, -, bvx, bvy, -, -⟩ :=
    beginStrokeAt_none_spec s x0 y0 he
  have inv : MonoInv (beginStrokeAt s x0 y0 none) s.nextGfxId
      (s.nextGfxId + 1) y0 0 := {
    pressed := bp
    noErr := be
    strokeRef := bstr
    tipRef := btip
    smY := bsmy
    lastSmY := blsy
    lastMY := blmy
    smEq := bsmx.trans blsx.symm
    vecY := bvy
    vecX := by rw [bvx]
    Dnonneg := le_refl 0
    lag := by rw [blmx, blsx, sub_self, mul_zero]
    thick := by
      rw [blt, bmin, btf, mul_zero, add_zero]
      exact h3 }
  have h := mono_chain ps (beginStrokeAt s x0 y0 none) s.nextGfxId
    (s.nextGfxId + 1) y0 0 inv
    (by rw [bsm]; exact h1) (by rw [bsm]; exact h2) (by rw [btf]; exact h4)
    (by rw [btsf]; exact h5) (by rw [btsf]; exact h6)
    (by rw [blmx]; exact hpos) (by rw [blmx]; exact hch)
  exact h.tail

/-- Witness for C8 at the default configuration: two same-direction updates
with distances 1 then 2. -/
theorem C8_witness :
    initState.err = false ∧ 0 < initState.smoothing ∧
    initState.smoothing < 1 ∧ 0 ≤ initState.minThickness ∧
    0 ≤ initState.thicknessFactor ∧ 0 ≤ initState.thicknessSmoothingFactor ∧
    initState.thicknessSmoothingFactor ≤ 1 ∧
    List.Chain' (· < ·) ((0 : ℝ) :: [1, 3]) ∧
    List.Chain' (· < ·) ((0 : ℝ) :: distancesFrom 0 [1, 3]) ∧
    List.Chain' (· ≤ ·)
      (thicknessTraceAt (beginStrokeAt initState 0 0 none) 0 [1, 3]) := by
  have hd : distancesFrom (0 : ℝ) [1, 3] = [1, 2] := by
    simp [distancesFrom]
    norm_num
  refine ⟨rfl, by norm_num [initState], by norm_num [initState],
    by norm_num [initState], by norm_num [initState], by norm_num [initState],
    by norm_num [initState], by norm_num, by rw [hd]; norm_num, ?_⟩
  exact C8_thickness_monotone initState 0 0 [1, 3] rfl
    (by norm_num [initState]) (by norm_num [initState])
    (by norm_num [initState]) (by norm_num [initState])
    (by norm_num [initState]) (by norm_num [initState])
    (by norm_num) (by rw [hd]; norm_num)

lemma stepThickness_eval (s : FState) (a T p : ℝ)
    (hsmx : s.smoothedMouseX = a) (hlsx : s.lastSmoothedMouseX = a)
    (hsmy : s.smoothedMouseY = 0) (hlsy : s.lastSmoothedMouseY = 0)
    (hlt : s.lastThickness = T) (hsm : s.smoothing = 0.3)
    (hmin : s.minThickness = 1) (htf : s.thicknessFactor = 0.3)
    (htsf : s.thicknessSmoothingFactor = 0.3) :
    stepThickness s p 0 = T + 0.3 * ((1 + 0.3 * |0.3 * (p - a)|) - T) := by
  rw [stepThickness, stepDist, smoothedNextX, smoothedNextY, hsmx, hlsx, hsmy,
    hlsy, hlt, hsm, hmin, htf, htsf]
  rw [show (0 : ℝ) + 0.3 * (0 - 0) - 0 = 0 by norm_num, mul_zero, add_zero]
  rw [show a + 0.3 * (p - a) - a = 0.3 * (p - a) by ring]
  rw [Real.sqrt_mul_self_eq_abs]

lemma cuspStepThickness_eval (s : FState) (q T p : ℝ)
    (hlmx : s.lastMouseX = q) (hlmy : s.lastMouseY = 0)
    (hlt : s.lastThickness = T) (hsm : s.smoothing = 0.3)
    (hmin : s.minThickness = 1) (htf : s.thicknessFactor = 0.3)
    (htsf : s.thicknessSmoothingFactor = 0.3)
    (httf : s.tipTaperFactor = 0.8) :
    cuspStepThickness s p 0
      = 0.8 * T + 0.3 * ((1 + 0.3 * |0.3 * (p - q)|) - 0.8 * T) := by
  rw [cuspStepThickness, hlmx, hlmy, hlt, hsm, hmin, htf, htsf, httf]
  rw [show (0.3 : ℝ) * ((0 : ℝ) - 0) = 0 by norm_num, mul_zero, add_zero]
  rw [Real.sqrt_mul_self_eq_abs]

/-- Counterexample to C8 as stated: from the default state, the samples
`(100,0), (201,0), (99,0)` after `beginStrokeAt(0,0)` have strictly
increasing sample-to-sample distances `100, 101, 102`, yet the third
update reverses direction, fires the cusp branch and the computed
`lineThickness` DROPS from `7.017` to `6.98352`. -/
theorem C8_counterexample :
    List.Chain' (· < ·) ((0 : ℝ) :: distancesFrom 0 [100, 201, 99]) ∧
    ¬ List.Chain' (· ≤ ·)
      (thicknessTraceAt (beginStrokeAt initState 0 0 none) 0 [100, 201, 99]) := by
  have e1 : |(100 : ℝ) - 0| = 100 := by
    rw [abs_of_pos (by norm_num : (0 : ℝ) < 100 - 0)]; norm_num
  have e2 : |(201 : ℝ) - 100| = 101 := by
    rw [abs_of_pos (by norm_num : (0 : ℝ) < 201 - 100)]; norm_num
  have e3 : |(99 : ℝ) - 201| = 102 := by
    rw [abs_of_neg (by norm_num : (99 : ℝ) - 201 < 0)]; norm_num
  have hdists : distancesFrom (0 : ℝ) [100, 201, 99] = [100, 101, 102] := by
    simp only [distancesFrom, e1, e2, e3]
  constructor
  · rw [hdists]; norm_num
  · -- name the successive states
    obtain ⟨bp, be, -, -, -, -, bstr, btip, -, -, bsm, bmin, btf, btsf, bttf,
      blmx, blmy, bsmx, bsmy, blsx, blsy, blt, -, bvx, bvy, -, -⟩ :=
      beginStrokeAt_none_spec initState 0 0 rfl
    have hBsm : (beginStrokeAt initState 0 0 none).smoothing = 0.3 := by
      rw [bsm]; rfl
    have hBmin : (beginStrokeAt initState 0 0 none).minThickness = 1 := by
      rw [bmin]; rfl
    have hBtf : (beginStrokeAt initState 0 0 none).thicknessFactor = 0.3 := by
      rw [btf]; rfl
    have hBtsf : (beginStrokeAt initState 0 0 none).thicknessSmoothingFactor
        = 0.3 := by rw [btsf]; rfl
    have hBttf : (beginStrokeAt initState 0 0 none).tipTaperFactor = 0.8 := by
      rw [bttf]; rfl
    -- first update, at x = 100: no cusp (movement vector is zero)
    have hnc1 : ¬ (((100 : ℝ)
        - (beginStrokeAt initState 0 0 none).lastMouseX)
        * (beginStrokeAt initState 0 0 none).lastMouseChangeVectorX
        + ((0 : ℝ) - (beginStrokeAt initState 0 0 none).lastMouseY)
        * (beginStrokeAt initState 0 0 none).lastMouseChangeVectorY < 0) := by
      rw [bvx, bvy]; simp
    obtain ⟨a1, -, a3, a4, a5, a6, a7, a8, a9, a10, a11, a12, a13, a14, a15,
      a16, a17, a18, a19, -, -, -, -⟩ :=
      updateStroke_noCusp_spec (beginStrokeAt initState 0 0 none)
        initState.nextGfxId (initState.nextGfxId + 1) 100 0 bp bstr btip be hnc1
    have hsn1 : smoothedNextX (beginStrokeAt initState 0 0 none) 100 = 30 := by
      rw [smoothedNextX, bsmx, hBsm]; norm_num
    have hsn1y : smoothedNextY (beginStrokeAt initState 0 0 none) 0 = 0 := by
      rw [smoothedNextY, bsmy, hBsm]; norm_num
    have hT1 : stepThickness (beginStrokeAt initState 0 0 none) 100 0 = 3 := by
      rw [stepThickness_eval _ 0 0 100 bsmx blsx bsmy blsy blt hBsm hBmin hBtf
        hBtsf]
      rw [show |(0.3 : ℝ) * (100 - 0)| = 30 by
        rw [show (0.3 : ℝ) * (100 - 0) = 30 by norm_num]
        exact abs_of_pos (by norm_num)]
      norm_num
    -- second update, at x = 201: still no cusp
    have hnc2 : ¬ (((201 : ℝ)
        - (updateStroke (beginStrokeAt initState 0 0 none) 100 0).lastMouseX)
        * (updateStroke (beginStrokeAt initState 0 0 none) 100
            0).lastMouseChangeVectorX
        + ((0 : ℝ)
        - (updateStroke (beginStrokeAt initState 0 0 none) 100 0).lastMouseY)
        * (updateStroke (beginStrokeAt initState 0 0 none) 100
            0).lastMouseChangeVectorY < 0) := by
      rw [a7, a8, a9, a10, blmx, blmy]
      norm_num
    obtain ⟨b1, b2, -, -, -, -, b7, b8, b9, b10, b11, b12, b13, b14, b15, b16,
      b17, b18, b19, -, -, -, -⟩ :=
      updateStroke_noCusp_spec
        (updateStroke (beginStrokeAt initState 0 0 none) 100 0)
        initState.nextGfxId (initState.nextGfxId + 1) 201 0 a11 a13 a14 a12 hnc2
    have hT2 : stepThickness (updateStroke (beginStrokeAt initState 0 0 none)
        100 0) 201 0 = 7.017 := by
      rw [stepThickness_eval _ 30 3 201 (a3.trans hsn1) (a4.trans hsn1)
        (a5.trans hsn1y) (a6.trans hsn1y) (a1.trans hT1) (a15.trans hBsm)
        (a16.trans hBmin) (a17.trans hBtf) (a18.trans hBtsf)]
      rw [show |(0.3 : ℝ) * (201 - 30)| = 51.3 by
        rw [show (0.3 : ℝ) * (201 - 30) = 51.3 by norm_num]
        exact abs_of_pos (by norm_num)]
      norm_num
    -- third update, at x = 99: direction reverses, the cusp fires
    have hc3 : ((99 : ℝ)
        - (updateStroke (updateStroke (beginStrokeAt initState 0 0 none) 100 0)
            201 0).lastMouseX)
        * (updateStroke (updateStroke (beginStrokeAt initState 0 0 none) 100 0)
            201 0).lastMouseChangeVectorX
        + ((0 : ℝ)
        - (updateStroke (updateStroke (beginStrokeAt initState 0 0 none) 100 0)
            201 0).lastMouseY)
        * (updateStroke (updateStroke (beginStrokeAt initState 0 0 none) 100 0)
            201 0).lastMouseChangeVectorY < 0 := by
      rw [b7, b8, b9, b10, a7, a8]
      norm_num
    obtain ⟨c1, -⟩ := updateStroke_cusp_thickness
      (updateStroke (updateStroke (beginStrokeAt initState 0 0 none) 100 0)
        201 0)
      initState.nextGfxId (initState.nextGfxId + 1) 99 0 b11 b13 b14 b12 hc3
    have hT3 : cuspStepThickness (updateStroke (updateStroke
        (beginStrokeAt initState 0 0 none) 100 0) 201 0) 99 0 = 6.98352 := by
      rw [cuspStepThickness_eval _ 201 7.017 99 b7 b8 (b1.trans hT2)
        (b15.trans (a15.trans hBsm)) (b16.trans (a16.trans hBmin))
        (b17.trans (a17.trans hBtf)) (b18.trans (a18.trans hBtsf))
        (b19.trans (a19.trans hBttf))]
      rw [show |(0.3 : ℝ) * (99 - 201)| = 30.6 by
        rw [show (0.3 : ℝ) * (99 - 201) = -30.6 by norm_num]
        rw [abs_of_neg (by norm_num : (-30.6 : ℝ) < 0)]
        norm_num]
      norm_num
    intro hchain
    simp only [thicknessTraceAt] at hchain
    rw [List.chain'_cons, List.chain'_cons] at hchain
    have hle := hchain.2.1
    rw [b2, hT2, c1, hT3] at hle
    norm_num at hle

end FreehandDrawing
